import Mathlib

/-!
Shallow embedding of the core of the trading bot repository:
zone scoring (src/indicators/accumulation.py), breakout planning and the
backtest simulator (src/backtest/engine.py), the live breakout detector
(src/trading/breakout_detector.py), the two live trailing-stop
implementations (src/trading/trailing_stop.py and src/main_live.py), and
stop replacement (src/execution/binance_client.py, src/execution/filters.py).

Python floats are modelled as rationals; pandas NaN-valued indicator cells
are modelled as Option-valued fields whose comparisons are False when the
value is missing, which is exactly the pandas comparison semantics used by
the scoring code.
-/

namespace TradingBot

/-- Trade direction, the "LONG"/"SHORT" strings of the source. -/
inductive Direction where
  | long
  | short
deriving DecidableEq

/-- One OHLC candle of the backtest dataframe: the index timestamp and the
high/low/close columns read by the engine (the open column is never read by
the embedded code paths). -/
structure Candle where
  time : ℤ
  high : ℚ
  low : ℚ
  close : ℚ
deriving DecidableEq

/-- A candle as seen by the live BreakoutDetector, which reads
high/low/close and the close_time column. -/
structure LiveCandle where
  closeTime : ℤ
  high : ℚ
  low : ℚ
  close : ℚ
deriving DecidableEq

/-- Python `int(x) if x > 0 else 0` for the step counters: truncation
toward zero, which on positive arguments is the floor. -/
def pyIntPos (q : ℚ) : ℕ :=
  if 0 < q then (⌊q⌋).toNat else 0

/-- pandas `DataFrame.tail(n)`: the last n elements. -/
def pyTail (n : ℕ) (l : List α) : List α :=
  l.drop (l.length - n)

/-! ### Zone scoring (src/indicators/accumulation.py, detect_accumulation_zones)

An indicator row: each cell is `none` when the pandas value is NaN
(rolling window not yet filled).  obvDiff models `obv.diff(accumulation_period)`;
the source's obv_trend column is `obv.diff(period) > 0`, which is False on NaN. -/

structure IndRow where
  atrPct : Option ℚ
  bbWidth : Option ℚ
  bbPosition : Option ℚ
  adx : Option ℚ
  rangePct : Option ℚ
  obvDiff : Option ℚ
deriving DecidableEq

/-- pandas `series < t` on a possibly-NaN cell: NaN compares False. -/
def optLt (x : Option ℚ) (t : ℚ) : Bool :=
  match x with
  | none => false
  | some v => decide (v < t)

/-- pandas `series > t` on a possibly-NaN cell: NaN compares False. -/
def optGt (x : Option ℚ) (t : ℚ) : Bool :=
  match x with
  | none => false
  | some v => decide (t < v)

/-- The threshold values the scoring compares against: the three series
quantiles (computed by pandas over the whole indicator series) and the
fixed adx / bollinger-position bounds from the parameter dict. -/
structure ScoreThresholds where
  atrQ : ℚ
  bbQ : ℚ
  rangeQ : ℚ
  adxThreshold : ℚ
  bbPosLow : ℚ
  bbPosHigh : ℚ
deriving DecidableEq

/-- The six accumulation conditions of detect_accumulation_zones, in source
order; the score is the number of satisfied conditions. -/
def accumulationConditions (th : ScoreThresholds) (r : IndRow) : List Bool :=
  [ optLt r.atrPct th.atrQ
  , optLt r.bbWidth th.bbQ
  , optLt r.adx th.adxThreshold
  , optGt r.bbPosition th.bbPosLow && optLt r.bbPosition th.bbPosHigh
  , optLt r.rangePct th.rangeQ
  , optGt r.obvDiff 0 ]

/-- accumulation_score = sum of the condition booleans. -/
def accumulationScore (th : ScoreThresholds) (r : IndRow) : ℕ :=
  (accumulationConditions th r).count true

/-- A candle qualifies as accumulating when score >= min_accumulation_score. -/
def qualifiesAsAccumulation (th : ScoreThresholds) (minScore : ℕ) (r : IndRow) : Bool :=
  minScore ≤ accumulationScore th r

/-! ### Trade planning (src/backtest/engine.py, BacktestEngine._calc_levels) -/

/-- The sl_method parameter: "low" or "mid". -/
inductive SlMethod where
  | lowMethod
  | midMethod
deriving DecidableEq

/-- The trailing_mode parameter: "bar_extremes", "step", or any other
string (the source compares strings, so unknown values disable updates). -/
inductive TrailMode where
  | barExtremes
  | step
  | offMode
deriving DecidableEq

/-- The parameters read by BacktestEngine (ACCUMULATION_PARAMS keys used by
_calc_levels / backtest_zone, plus capital and RISK_MANAGEMENT.risk_per_trade). -/
structure BtParams where
  slMethod : SlMethod
  rrMin : ℚ
  lookbackBarsForTp : ℕ
  useTrailingStop : Bool
  trailingActivateRr : ℚ
  trailingMode : TrailMode
  trailingBufferPct : ℚ
  trailingStepPct : ℚ
  capital : ℚ
  riskPerTrade : ℚ
deriving DecidableEq

/-- A detected zone as consumed by the engine: id, start/end timestamps and
price bounds. -/
structure Zone where
  zoneId : ℤ
  zstart : ℤ
  zend : ℤ
  zhigh : ℚ
  zlow : ℚ
deriving DecidableEq

/-- Engine LONG breakout test on one candle: high above the zone high AND
close above the zone high (lines 42 and 74 of engine.py). -/
def engineLongBreakout (zoneHigh : ℚ) (c : Candle) : Bool :=
  decide (zoneHigh < c.high) && decide (zoneHigh < c.close)

/-- Engine SHORT breakout test on one candle: low below the zone low AND
close below the zone low (lines 48 and 81 of engine.py). -/
def engineShortBreakout (zoneLow : ℚ) (c : Candle) : Bool :=
  decide (c.low < zoneLow) && decide (c.close < zoneLow)

/-- The scan over candles after the zone end: first candle whose LONG test
holds (checked first) or whose SHORT test holds. -/
def findBreakoutAfter (zoneHigh zoneLow : ℚ) : List Candle → Option (Direction × Candle)
  | [] => none
  | c :: rest =>
    if engineLongBreakout zoneHigh c then some (Direction.long, c)
    else if engineShortBreakout zoneLow c then some (Direction.short, c)
    else findBreakoutAfter zoneHigh zoneLow rest

/-- Breakout search of _calc_levels: first test the zone's own last candle
(the row with index = zone end), then every candle strictly after the zone
end in order. -/
def findBreakout (df : List Candle) (z : Zone) : Option (Direction × Candle) :=
  let lastZoneCandle := (df.filter (fun c => c.time = z.zend)).head?
  let fromLast : Option (Direction × Candle) :=
    match lastZoneCandle with
    | none => none
    | some c =>
      if engineLongBreakout z.zhigh c then some (Direction.long, c)
      else if engineShortBreakout z.zlow c then some (Direction.short, c)
      else none
  match fromLast with
  | some r => some r
  | none => findBreakoutAfter z.zhigh z.zlow (df.filter (fun c => z.zend < c.time))

/-- Python min over a nonempty list, via foldl. -/
def listMin (h : ℚ) (t : List ℚ) : ℚ :=
  t.foldl min h

/-- Python max over a nonempty list, via foldl. -/
def listMax (h : ℚ) (t : List ℚ) : ℚ :=
  t.foldl max h

/-- threshold_tp of _calc_levels for a LONG trade: entry + rr_min * risk,
with risk = the absolute entry-to-stop distance. -/
def rawTargetLong (entry stopLoss rrMin : ℚ) : ℚ :=
  entry + rrMin * |entry - stopLoss|

/-- threshold_tp of _calc_levels for a SHORT trade: entry - rr_min * risk. -/
def rawTargetShort (entry stopLoss rrMin : ℚ) : ℚ :=
  entry - rrMin * |entry - stopLoss|

/-- candidate_highs of _calc_levels: the highs at or above the raw target
among the tail(lookback) of the candles before the zone start. -/
def tpCandidatesLong (entry stopLoss rrMin : ℚ) (lookback : ℕ) (dataBefore : List Candle) :
    List ℚ :=
  ((pyTail lookback dataBefore).map Candle.high).filter
    (fun h => decide (rawTargetLong entry stopLoss rrMin ≤ h))

/-- candidate_lows of _calc_levels: the lows at or below the raw target. -/
def tpCandidatesShort (entry stopLoss rrMin : ℚ) (lookback : ℕ) (dataBefore : List Candle) :
    List ℚ :=
  ((pyTail lookback dataBefore).map Candle.low).filter
    (fun l => decide (l ≤ rawTargetShort entry stopLoss rrMin))

/-- LONG take-profit of _calc_levels: the minimum candidate high when one
exists, else the raw target. -/
def takeProfitLong (entry stopLoss rrMin : ℚ) (lookback : ℕ) (dataBefore : List Candle) : ℚ :=
  match tpCandidatesLong entry stopLoss rrMin lookback dataBefore with
  | [] => rawTargetLong entry stopLoss rrMin
  | h :: t => listMin h t

/-- SHORT take-profit of _calc_levels: the maximum candidate low when one
exists, else the raw target. -/
def takeProfitShort (entry stopLoss rrMin : ℚ) (lookback : ℕ) (dataBefore : List Candle) : ℚ :=
  match tpCandidatesShort entry stopLoss rrMin lookback dataBefore with
  | [] => rawTargetShort entry stopLoss rrMin
  | h :: t => listMax h t

/-- The planned trade record produced by _calc_levels. -/
structure TradeLevels where
  direction : Direction
  entryPrice : ℚ
  entryTime : ℤ
  stopLoss : ℚ
  takeProfit : ℚ
  positionSize : ℚ
  riskAmount : ℚ
  riskPrice : ℚ
  rewardPrice : ℚ
  riskReward : ℚ
  zoneId : ℤ
deriving DecidableEq

/-- BacktestEngine._calc_levels: locate the breakout candle, pick the stop
by sl_method, pick the take-profit from prior extremes, and size the
position from capital * risk_per_trade. -/
def calcLevels (df : List Candle) (p : BtParams) (z : Zone) : Option TradeLevels :=
  match findBreakout df z with
  | none => none
  | some (dir, bc) =>
    let entryPrice := bc.close
    let zoneMid := (z.zhigh + z.zlow) / 2
    let stopLoss :=
      match p.slMethod with
      | SlMethod.lowMethod => if dir = Direction.long then z.zlow else z.zhigh
      | SlMethod.midMethod => zoneMid
    let dataBefore := df.filter (fun c => c.time < z.zstart)
    let takeProfit :=
      if dir = Direction.long then
        takeProfitLong entryPrice stopLoss p.rrMin p.lookbackBarsForTp dataBefore
      else
        takeProfitShort entryPrice stopLoss p.rrMin p.lookbackBarsForTp dataBefore
    let riskAmount := p.capital * p.riskPerTrade
    let riskPrice := |entryPrice - stopLoss|
    let positionSize := if 0 < riskPrice then riskAmount / riskPrice else 0
    let rewardPrice := |takeProfit - entryPrice|
    let riskReward := if 0 < riskPrice then rewardPrice / riskPrice else 0
    some
      { direction := dir
      , entryPrice := entryPrice
      , entryTime := bc.time
      , stopLoss := stopLoss
      , takeProfit := takeProfit
      , positionSize := positionSize
      , riskAmount := riskAmount
      , riskPrice := riskPrice
      , rewardPrice := rewardPrice
      , riskReward := riskReward
      , zoneId := z.zoneId }

/-! ### Live breakout detector (src/trading/breakout_detector.py, detect_breakout) -/

/-- BreakoutDetector.detect_breakout: the candle must close at or after the
zone end; LONG needs the candle low inside the zone bounds and the close
above the zone high; SHORT needs the candle high inside the bounds and the
close below the zone low. -/
def detectBreakout (zoneHigh zoneLow : ℚ) (zoneEnd : ℤ) (c : LiveCandle) : Option Direction :=
  if c.closeTime < zoneEnd then none
  else if zoneLow ≤ c.low ∧ c.low ≤ zoneHigh ∧ zoneHigh < c.close then
    some Direction.long
  else if zoneLow ≤ c.high ∧ c.high ≤ zoneHigh ∧ c.close < zoneLow then
    some Direction.short
  else none

/-! ### Trailing-stop state

All three implementations (the backtest per-bar loop of engine.py lines
159-209, TrailingStopManager of trailing_stop.py, and the
manage_trailing_stop loop of main_live.py) keep the same three pieces of
state: the current stop, the activation flag and the step counter. -/

/-- The configuration shared by one trade's trailing computations.
threshold is the activation threshold entry +- rr * risk that every
implementation computes the same way from entry, the initial stop and the
trailing_activate_rr parameter. -/
structure TrailCfg where
  dir : Direction
  entry : ℚ
  initialStop : ℚ
  useTrail : Bool
  mode : TrailMode
  bufPct : ℚ
  stepPct : ℚ
  threshold : ℚ
deriving DecidableEq

/-- Mutable trailing state: current stop, activation flag, step counter. -/
structure TrailState where
  stop : ℚ
  active : Bool
  lastStep : ℕ
deriving DecidableEq

/-- step_amount = entry_price * (trail_step_pct / 100). -/
def stepAmount (cfg : TrailCfg) : ℚ :=
  cfg.entry * (cfg.stepPct / 100)

/-- Backtest per-bar trailing update (engine.py lines 174-209): activation
check first, then, if active, the stop recomputation of the configured
mode.  In step mode the target is entry_price + steps * step_amount
(engine.py line 198), based on the entry price. -/
def btTrailUpdate (cfg : TrailCfg) (st : TrailState) (c : Candle) : TrailState :=
  let active :=
    st.active ||
      (cfg.useTrail &&
        (match cfg.dir with
         | Direction.long => decide (cfg.threshold ≤ c.high)
         | Direction.short => decide (c.low ≤ cfg.threshold)))
  if active then
    match cfg.mode with
    | TrailMode.barExtremes =>
      match cfg.dir with
      | Direction.long =>
        let buffer := c.low * cfg.bufPct / 100
        { stop := max st.stop (c.low - buffer), active := active, lastStep := st.lastStep }
      | Direction.short =>
        let buffer := c.high * cfg.bufPct / 100
        { stop := min st.stop (c.high + buffer), active := active, lastStep := st.lastStep }
    | TrailMode.step =>
      if 0 < cfg.stepPct then
        match cfg.dir with
        | Direction.long =>
          let steps := pyIntPos ((c.high - cfg.entry) / stepAmount cfg)
          if st.lastStep < steps then
            let target := cfg.entry + (steps : ℚ) * stepAmount cfg
            let buffer := target * cfg.bufPct / 100
            { stop := max st.stop (target - buffer), active := active, lastStep := steps }
          else
            { stop := st.stop, active := active, lastStep := st.lastStep }
        | Direction.short =>
          let steps := pyIntPos ((cfg.entry - c.low) / stepAmount cfg)
          if st.lastStep < steps then
            let target := cfg.entry - (steps : ℚ) * stepAmount cfg
            let buffer := |target| * cfg.bufPct / 100
            { stop := min st.stop (target + buffer), active := active, lastStep := steps }
          else
            { stop := st.stop, active := active, lastStep := st.lastStep }
      else
        { stop := st.stop, active := active, lastStep := st.lastStep }
    | TrailMode.offMode =>
      { stop := st.stop, active := active, lastStep := st.lastStep }
  else
    { stop := st.stop, active := active, lastStep := st.lastStep }

/-- Backtest trailing state after a sequence of bars. -/
def btTrailFold (cfg : TrailCfg) (st : TrailState) (candles : List Candle) : TrailState :=
  candles.foldl (btTrailUpdate cfg) st

/-! ### Live TrailingStopManager (src/trading/trailing_stop.py) -/

/-- TrailingStopManager.check_activation: one-way activation on the price
reaching the threshold; on activation in step mode the step counter is
initialized to the progress already made by the activation candle. -/
def liveCheckActivation (cfg : TrailCfg) (st : TrailState) (c : Candle) : TrailState :=
  if st.active then st
  else
    let activated :=
      match cfg.dir with
      | Direction.long => decide (cfg.threshold ≤ c.high)
      | Direction.short => decide (c.low ≤ cfg.threshold)
    if activated then
      let lastStep :=
        if cfg.mode = TrailMode.step ∧ 0 < cfg.stepPct then
          match cfg.dir with
          | Direction.long => pyIntPos ((c.high - cfg.entry) / stepAmount cfg)
          | Direction.short => pyIntPos ((cfg.entry - c.low) / stepAmount cfg)
        else st.lastStep
      { stop := st.stop, active := true, lastStep := lastStep }
    else st

/-- TrailingStopManager.calculate_new_stop (with its helpers
_calculate_bar_extreme_stop and _calculate_step_stop): returns the proposed
stop and the step counter after the call (the helper mutates
last_step_applied before the stop order is even attempted).  In step mode
the target is initial_stop + steps * step_amount (trailing_stop.py line
157), based on the initial stop. -/
def liveCalculateNewStop (cfg : TrailCfg) (st : TrailState) (c : Candle) : ℚ × ℕ :=
  if !st.active then (st.stop, st.lastStep)
  else
    match cfg.mode with
    | TrailMode.barExtremes =>
      match cfg.dir with
      | Direction.long =>
        let buffer := c.low * cfg.bufPct / 100
        (max st.stop (c.low - buffer), st.lastStep)
      | Direction.short =>
        let buffer := c.high * cfg.bufPct / 100
        (min st.stop (c.high + buffer), st.lastStep)
    | TrailMode.step =>
      if 0 < cfg.stepPct then
        match cfg.dir with
        | Direction.long =>
          let steps := pyIntPos ((c.high - cfg.entry) / stepAmount cfg)
          if st.lastStep < steps then
            let target := cfg.initialStop + (steps : ℚ) * stepAmount cfg
            let buffer := target * cfg.bufPct / 100
            (max st.stop (target - buffer), steps)
          else (st.stop, st.lastStep)
        | Direction.short =>
          let steps := pyIntPos ((cfg.entry - c.low) / stepAmount cfg)
          if st.lastStep < steps then
            let target := cfg.initialStop - (steps : ℚ) * stepAmount cfg
            let buffer := |target| * cfg.bufPct / 100
            (min st.stop (target + buffer), steps)
          else (st.stop, st.lastStep)
      else (st.stop, st.lastStep)
    | TrailMode.offMode => (st.stop, st.lastStep)

/-- One iteration of TrailingStopManager.run on a finished candle:
check_activation, then calculate_new_stop, then update_stop_loss, which
changes the stored stop only when the change exceeds the 0.01 minimal
delta and (flag ok) the exchange-side replacement succeeded; on a rejected
or failed replacement the old stop is kept (the step counter stays
advanced either way, as in the source). -/
def liveManagerStep (cfg : TrailCfg) (st : TrailState) (co : Candle × Bool) : TrailState :=
  let st1 := liveCheckActivation cfg st co.1
  let pr := liveCalculateNewStop cfg st1 co.1
  let stop := if 1/100 < |pr.1 - st1.stop| ∧ co.2 then pr.1 else st1.stop
  { stop := stop, active := st1.active, lastStep := pr.2 }

/-- TrailingStopManager state after a stream of candles, each paired with
whether the exchange accepted the stop replacement requested on it. -/
def liveManagerFold (cfg : TrailCfg) (st : TrailState) (candles : List (Candle × Bool)) : TrailState :=
  candles.foldl (liveManagerStep cfg) st

/-! ### Live loop of src/main_live.py (manage_trailing_stop) -/

/-- One iteration of the manage_trailing_stop loop of main_live.py on a
finished candle (lines 180-378): activation (with step-counter
initialization, lines 214-246), then the stop recomputation; the step mode
additionally clamps a computed stop that reached the candle close to 0.1
percent below (LONG) or above (SHORT) the close (lines 283-302); the stop
is stored only when the change exceeds 0.01 and (flag ok) the
replacement succeeded, otherwise it reverts to the old value. -/
def mainLiveStep (cfg : TrailCfg) (st : TrailState) (co : Candle × Bool) : TrailState :=
  let c := co.1
  let st1 := liveCheckActivation cfg st c
  let pr :=
    if !st1.active then (st1.stop, st1.lastStep)
    else
      match cfg.mode with
      | TrailMode.barExtremes =>
        match cfg.dir with
        | Direction.long =>
          let buffer := if 0 < cfg.bufPct then c.low * cfg.bufPct / 100 else 0
          (max st1.stop (c.low - buffer), st1.lastStep)
        | Direction.short =>
          let buffer := if 0 < cfg.bufPct then c.high * cfg.bufPct / 100 else 0
          (min st1.stop (c.high + buffer), st1.lastStep)
      | TrailMode.step =>
        if 0 < cfg.stepPct then
          match cfg.dir with
          | Direction.long =>
            let steps := pyIntPos ((c.high - cfg.entry) / stepAmount cfg)
            if st1.lastStep < steps then
              let target := cfg.initialStop + (steps : ℚ) * stepAmount cfg
              let buffer := if 0 < cfg.bufPct then target * cfg.bufPct / 100 else 0
              let proposed := max st1.stop (target - buffer)
              let clamped := if c.close ≤ proposed then c.close * (999/1000) else proposed
              (clamped, steps)
            else (st1.stop, st1.lastStep)
          | Direction.short =>
            let steps := pyIntPos ((cfg.entry - c.low) / stepAmount cfg)
            if st1.lastStep < steps then
              let target := cfg.initialStop - (steps : ℚ) * stepAmount cfg
              let buffer := if 0 < cfg.bufPct then |target| * cfg.bufPct / 100 else 0
              let proposed := min st1.stop (target + buffer)
              let clamped := if proposed ≤ c.close then c.close * (1001/1000) else proposed
              (clamped, steps)
            else (st1.stop, st1.lastStep)
        else (st1.stop, st1.lastStep)
      | TrailMode.offMode => (st1.stop, st1.lastStep)
  let stop := if 1/100 < |pr.1 - st1.stop| ∧ co.2 then pr.1 else st1.stop
  { stop := stop, active := st1.active, lastStep := pr.2 }

/-- main_live trailing state after a stream of candles with replacement
outcomes. -/
def mainLiveFold (cfg : TrailCfg) (st : TrailState) (candles : List (Candle × Bool)) : TrailState :=
  candles.foldl (mainLiveStep cfg) st

/-! ### Backtest exit scan (src/backtest/engine.py, backtest_zone lines 210-240) -/

/-- Trade result strings. -/
inductive TradeResult where
  | win
  | loss
  | openResult
deriving DecidableEq

/-- Exit reason strings; an unresolved OPEN trade keeps reason None. -/
inductive ExitReason where
  | tp
  | sl
  | trailReason
deriving DecidableEq

/-- An exit found by the scan: result, the candle timestamp, the exit
price and the reason. -/
structure ExitInfo where
  result : TradeResult
  exitTime : ℤ
  exitPrice : ℚ
  reason : ExitReason
deriving DecidableEq

/-- The per-bar exit evaluation (engine.py lines 210-236): TP first, then
the (possibly trailed) stop; the reason is TRAIL when trailing is enabled
and the stop has moved from its initial value, else SL. -/
def evalExit (dir : Direction) (useTrail : Bool) (takeProfit originalStop currentStop : ℚ)
    (c : Candle) : Option ExitInfo :=
  match dir with
  | Direction.long =>
    if takeProfit ≤ c.high then
      some { result := TradeResult.win, exitTime := c.time, exitPrice := takeProfit
           , reason := ExitReason.tp }
    else if c.low ≤ currentStop then
      some { result := TradeResult.loss, exitTime := c.time, exitPrice := currentStop
           , reason := if useTrail ∧ currentStop ≠ originalStop then ExitReason.trailReason
                       else ExitReason.sl }
    else none
  | Direction.short =>
    if c.low ≤ takeProfit then
      some { result := TradeResult.win, exitTime := c.time, exitPrice := takeProfit
           , reason := ExitReason.tp }
    else if currentStop ≤ c.high then
      some { result := TradeResult.loss, exitTime := c.time, exitPrice := currentStop
           , reason := if useTrail ∧ currentStop ≠ originalStop then ExitReason.trailReason
                       else ExitReason.sl }
    else none

/-- The scan over the candles after the entry candle: each bar updates the
trailing state first and then evaluates the exit against the updated stop;
the loop stops at the first exit. -/
def scanLoop (cfg : TrailCfg) (takeProfit originalStop : ℚ) (st : TrailState) :
    List Candle → Option ExitInfo
  | [] => none
  | c :: rest =>
    let st1 := btTrailUpdate cfg st c
    match evalExit cfg.dir cfg.useTrail takeProfit originalStop st1.stop c with
    | some e => some e
    | none => scanLoop cfg takeProfit originalStop st1 rest

/-- pandas Index.get_loc on the unique, strictly increasing time index:
the position of the candle with the given timestamp. -/
def getLoc : List Candle → ℤ → Option ℕ
  | [], _ => none
  | c :: rest, t =>
    if c.time = t then some 0 else (getLoc rest t).map (· + 1)

/-- A finished (or unresolved) simulated trade. -/
structure Trade where
  levels : TradeLevels
  result : TradeResult
  exitTime : ℤ
  exitPrice : ℚ
  reason : Option ExitReason
  pnlPct : ℚ
  pnlUsd : ℚ
deriving DecidableEq

/-- The trailing configuration backtest_zone builds for a planned trade
(engine.py lines 159-172): risk is zero when trailing is disabled and the
activation threshold is entry +- trailing_activate_rr * risk. -/
def btTrailCfgOf (p : BtParams) (tr : TradeLevels) : TrailCfg :=
  let risk := if p.useTrailingStop then |tr.entryPrice - tr.stopLoss| else 0
  { dir := tr.direction
  , entry := tr.entryPrice
  , initialStop := tr.stopLoss
  , useTrail := p.useTrailingStop
  , mode := p.trailingMode
  , bufPct := p.trailingBufferPct
  , stepPct := p.trailingStepPct
  , threshold :=
      match tr.direction with
      | Direction.long => tr.entryPrice + p.trailingActivateRr * risk
      | Direction.short => tr.entryPrice - p.trailingActivateRr * risk }

/-- BacktestEngine.backtest_zone: plan the trade, require at least one
candle after the entry candle (no same-bar exit), scan for the exit, fall
back to an unresolved OPEN trade at the last close, and compute the P&L. -/
def backtestZone (df : List Candle) (p : BtParams) (z : Zone) : Option Trade :=
  match calcLevels df p z with
  | none => none
  | some tr =>
    match getLoc df tr.entryTime with
    | none => none
    | some entryIdx =>
      if df.length ≤ entryIdx + 1 then none
      else
        let future := df.drop (entryIdx + 1)
        let cfg := btTrailCfgOf p tr
        let st0 : TrailState := { stop := tr.stopLoss, active := false, lastStep := 0 }
        let outcome :=
          match scanLoop cfg tr.takeProfit tr.stopLoss st0 future with
          | some e => some (e.result, e.exitTime, e.exitPrice, some e.reason)
          | none =>
            match future.getLast? with
            | some lastCandle =>
              some (TradeResult.openResult, lastCandle.time, lastCandle.close,
                    (none : Option ExitReason))
            | none => none
        match outcome with
        | none => none
        | some (result, exitTime, exitPrice, reason) =>
          let pnlPct :=
            match tr.direction with
            | Direction.long => (exitPrice - tr.entryPrice) / tr.entryPrice * 100
            | Direction.short => (tr.entryPrice - exitPrice) / tr.entryPrice * 100
          let pnlUsd :=
            match tr.direction with
            | Direction.long => (exitPrice - tr.entryPrice) * tr.positionSize
            | Direction.short => (tr.entryPrice - exitPrice) * tr.positionSize
          some
            { levels := tr
            , result := result
            , exitTime := exitTime
            , exitPrice := exitPrice
            , reason := reason
            , pnlPct := pnlPct
            , pnlUsd := pnlUsd }

/-! ### Aggregation (src/backtest/engine.py, simulate_all lines 259-285)

simulate_all derives the zone list by running the pandas/ta indicator
pipeline; the aggregation loop itself, which the statistics claims are
about, is embedded here over an explicit zone list. -/

/-- The counters simulate_all keeps; the printed "zones without breakout"
figure is the derived total - successful - no_next_candle. -/
structure SimStats where
  totalZones : ℕ
  noNextCandle : ℕ
  successfulTrades : ℕ
deriving DecidableEq

/-- The body of the simulate_all loop for one zone: a zone that produces a
trade counts as successful; a zone that produces none counts under
no_next_candle exactly when no candle lies after its end. -/
def simStatsStep (df : List Candle) (p : BtParams) (stats : SimStats) (z : Zone) : SimStats :=
  match backtestZone df p z with
  | some _ =>
    { stats with successfulTrades := stats.successfulTrades + 1 }
  | none =>
    if (df.filter (fun c => z.zend < c.time)).isEmpty then
      { stats with noNextCandle := stats.noNextCandle + 1 }
    else stats

/-- The simulate_all aggregation loop over the detected zones. -/
def simulateAllStats (df : List Candle) (p : BtParams) (zones : List Zone) : SimStats :=
  zones.foldl (simStatsStep df p)
    { totalZones := zones.length, noNextCandle := 0, successfulTrades := 0 }

/-- The derived "Zones without breakout" figure printed by simulate_all. -/
def zonesWithoutBreakout (s : SimStats) : ℕ :=
  s.totalZones - s.successfulTrades - s.noNextCandle

/-! ### Stop replacement (src/execution/filters.py and
src/execution/binance_client.py, replace_stop_loss lines 458-487) -/

/-- Decimal floor-division-then-multiply of filters.py _round_step on a
positive step: Decimal // truncates toward zero, which on the nonnegative
prices installed here is the floor. -/
def roundStep (value step : ℚ) : ℚ :=
  if step = 0 then value
  else if 0 ≤ value / step then (⌊value / step⌋ : ℚ) * step
  else (⌈value / step⌉ : ℚ) * step

/-- filters.round_price: round down to the tick size when one is set. -/
def roundPrice (tickSize : ℚ) (price : ℚ) : ℚ :=
  if tickSize = 0 then price else roundStep price tickSize

/-- Order side strings. -/
inductive Side where
  | sell
  | buy
deriving DecidableEq

/-- The exchange calls replace_stop_loss can issue, in order. -/
inductive ExchangeAction where
  | cancelStopOrders
  | placeStopLoss (stopPrice : ℚ)
deriving DecidableEq

/-- BinanceFuturesExecutor.replace_stop_loss: round the requested stop to
the tick size, then reject (ValueError, no exchange call) when the rounded
stop is within max(2 ticks, 0.01 percent of price) of the current price or
beyond it; otherwise cancel the existing stops and place the new one.
Returns the placed stop (none on rejection) and the exchange calls made. -/
def replaceStopLoss (tickSize : ℚ) (side : Side) (newStop currentPrice : ℚ) :
    Option ℚ × List ExchangeAction :=
  let s := roundPrice tickSize newStop
  let minDistance := max (tickSize * 2) (currentPrice * (1/10000))
  let tooClose :=
    match side with
    | Side.sell => decide (currentPrice - minDistance ≤ s)
    | Side.buy => decide (s ≤ currentPrice + minDistance)
  if tooClose then (none, [])
  else (some s, [ExchangeAction.cancelStopOrders, ExchangeAction.placeStopLoss s])

/-- TrailingStopManager.update_stop_loss: skip when the change is within
the 0.01 minimal delta; otherwise request the replacement and store the new
stop only on success, keeping the old stop when the client rejects the
request (the ValueError branch) -- a recoverable outcome, returned as a
Boolean rather than an exception. -/
def managerUpdateStopLoss (tickSize : ℚ) (dir : Direction) (st : TrailState)
    (newStop currentPrice : ℚ) : TrailState × Bool × List ExchangeAction :=
  if |newStop - st.stop| ≤ 1/100 then (st, false, [])
  else
    let side := match dir with | Direction.long => Side.sell | Direction.short => Side.buy
    match replaceStopLoss tickSize side newStop currentPrice with
    | (none, acts) => (st, false, acts)
    | (some _, acts) => ({ st with stop := newStop }, true, acts)

/-! ### Demonstration inputs used by counterexamples and witnesses -/

/-- A LONG step-mode trailing configuration: entry 100, initial stop 95
(risk 5), activation at RR 1 (threshold 105), 1 percent steps, no buffer. -/
def demoStepCfg : TrailCfg :=
  { dir := Direction.long, entry := 100, initialStop := 95, useTrail := true
  , mode := TrailMode.step, bufPct := 0, stepPct := 1, threshold := 105 }

/-- The fresh trailing state for demoStepCfg. -/
def demoStepState : TrailState :=
  { stop := 95, active := false, lastStep := 0 }

/-! ### C1 -/

/-- C1, counterexample: in step mode the backtest loop and the live
TrailingStopManager disagree on the very first candle.  On the candle
(high 107, low 100, close 106) the backtest activates, counts 7 steps and
ratchets the stop to entry + 7 * step = 107, while the live manager
initializes its step counter to 7 at activation and keeps the stop at 95
(and its step target would in any case be based on the initial stop 95,
not the entry price). -/
theorem C1_step_mode_divergence_counterexample :
    (btTrailFold demoStepCfg demoStepState [⟨1, 107, 100, 106⟩]).stop = 107 ∧
    (liveManagerFold demoStepCfg demoStepState [(⟨1, 107, 100, 106⟩, true)]).stop = 95 := by
  have hbt : btTrailUpdate demoStepCfg demoStepState ⟨1, 107, 100, 106⟩ =
      { stop := 107, active := true, lastStep := 7 } := by
    norm_num [btTrailUpdate, demoStepCfg, demoStepState, stepAmount, pyIntPos,
      sup_eq_max, max_def]
    simp
    norm_num
  have hlv : liveManagerStep demoStepCfg demoStepState (⟨1, 107, 100, 106⟩, true) =
      { stop := 95, active := true, lastStep := 7 } := by
    norm_num [liveManagerStep, liveCheckActivation, liveCalculateNewStop,
      demoStepCfg, demoStepState, stepAmount, pyIntPos]
    simp
  constructor
  · simp [btTrailFold, hbt]
  · simp [liveManagerFold, hlv]

/-! ### C4 -/

/-- C4, counterexample: the backtest step-mode update applies no safety
clamp.  On the candle (high 107, low 100, close 105) the backtest stop
becomes 107, at or above the current close 105, instead of being pulled to
0.1 percent below it (which would be 104.895). -/
theorem C4_backtest_no_clamp_counterexample :
    (btTrailFold demoStepCfg demoStepState [⟨1, 107, 100, 105⟩]).stop = 107 ∧
    (105 : ℚ) ≤ (btTrailFold demoStepCfg demoStepState [⟨1, 107, 100, 105⟩]).stop ∧
    (btTrailFold demoStepCfg demoStepState [⟨1, 107, 100, 105⟩]).stop ≠ 105 * (999/1000) := by
  have hbt : btTrailUpdate demoStepCfg demoStepState ⟨1, 107, 100, 105⟩ =
      { stop := 107, active := true, lastStep := 7 } := by
    norm_num [btTrailUpdate, demoStepCfg, demoStepState, stepAmount, pyIntPos,
      sup_eq_max, max_def]
    simp
    norm_num
  refine ⟨?_, ?_, ?_⟩
  · simp only [btTrailFold, List.foldl, hbt]
  · simp only [btTrailFold, List.foldl, hbt]
    norm_num
  · simp only [btTrailFold, List.foldl, hbt]
    norm_num

/-! ### C3 -/

/-- The three-candle LONG step-mode trace on which the main_live loop
lowers its stop: activation at high 105 (step counter 5), a step update to
stop 105 on the second candle, then a third candle whose close 105.05
triggers the safety clamp, pulling the stop down to 104.94495. -/
def demoClampCandles : List (Candle × Bool) :=
  [ (⟨1, 105, 100, 104⟩, true)
  , (⟨2, 110, 104, 213/2⟩, true)
  , (⟨3, 112, 105, 2101/20⟩, true) ]

/-- C3, counterexample: the main_live step-mode loop is not a ratchet.
After two candles its stop is 105; the third candle's clamp moves the stop
down to 104.94495 < 105, so the stop of a LONG position decreased. -/
theorem C3_main_live_clamp_counterexample :
    (mainLiveFold demoStepCfg demoStepState (demoClampCandles.take 2)).stop = 105 ∧
    (mainLiveFold demoStepCfg demoStepState demoClampCandles).stop = 2098899/20000 ∧
    (2098899/20000 : ℚ) < 105 := by
  have h1 : mainLiveStep demoStepCfg demoStepState (⟨1, 105, 100, 104⟩, true) =
      { stop := 95, active := true, lastStep := 5 } := by
    norm_num [mainLiveStep, liveCheckActivation, demoStepCfg, demoStepState,
      stepAmount, pyIntPos]
    simp
  have h2 : mainLiveStep demoStepCfg { stop := 95, active := true, lastStep := 5 }
      (⟨2, 110, 104, 213/2⟩, true) =
      { stop := 105, active := true, lastStep := 10 } := by
    norm_num [mainLiveStep, liveCheckActivation, demoStepCfg,
      stepAmount, pyIntPos, sup_eq_max, max_def]
    simp
    norm_num
  have h3 : mainLiveStep demoStepCfg { stop := 105, active := true, lastStep := 10 }
      (⟨3, 112, 105, 2101/20⟩, true) =
      { stop := 2098899/20000, active := true, lastStep := 12 } := by
    norm_num [mainLiveStep, liveCheckActivation, demoStepCfg,
      stepAmount, pyIntPos, sup_eq_max, max_def]
    simp
    norm_num [abs]
  refine ⟨?_, ?_, by norm_num⟩
  · simp only [mainLiveFold, demoClampCandles, List.take, List.foldl, h1, h2]
  · simp only [mainLiveFold, demoClampCandles, List.foldl, h1, h2, h3]

/-! ### C2 -/

/-- C2, counterexample: a gap candle lying entirely above the zone
(zone [100, 105], candle low 110, high 112, close 111, closing after the
zone end) satisfies high > zone_high and close > zone_high, and the
backtest engine flags it as a LONG breakout, but the live
BreakoutDetector.detect_breakout does not flag it, because it additionally
requires the candle low to lie inside the zone.  The claimed
if-and-only-if therefore fails for the detector. -/
theorem C2_gap_candle_counterexample :
    engineLongBreakout 105 ⟨5, 112, 110, 111⟩ = true ∧
    detectBreakout 105 100 0 ⟨5, 112, 110, 111⟩ = none := by
  decide

/-! ### C7 -/

/-- C7, counterexample: a row whose range_pct and obv columns are still
undefined (rolling window not filled) can nevertheless score 4 from its
four defined conditions and qualify as accumulating under
min_accumulation_score = 4. -/
theorem C7_nan_row_counterexample :
    (⟨some 0, some 0, some 0, some 10, none, none⟩ : IndRow).rangePct = none ∧
    qualifiesAsAccumulation ⟨1, 1, 1, 30, -1, 1⟩ 4
      ⟨some 0, some 0, some 0, some 10, none, none⟩ = true := by
  decide

/-- C7 (amended): a scoring condition whose indicator value is undefined is
never counted as satisfied, so a row all of whose indicator values are
undefined scores zero and, for any positive min_accumulation_score, never
qualifies as accumulating; rows with only some undefined values can still
reach the score (see the counterexample). -/
theorem C7_undefined_rows_scoring (th : ScoreThresholds) (minScore : ℕ) (r : IndRow)
    (h : r.atrPct = none ∧ r.bbWidth = none ∧ r.bbPosition = none ∧ r.adx = none ∧
      r.rangePct = none ∧ r.obvDiff = none) :
    accumulationScore th r = 0 ∧
    (1 ≤ minScore → qualifiesAsAccumulation th minScore r = false) := by
  obtain ⟨h1, h2, h3, h4, h5, h6⟩ := h
  have hs : accumulationScore th r = 0 := by
    simp [accumulationScore, accumulationConditions, optLt, optGt, h1, h2, h3, h4, h5, h6]
  refine ⟨hs, fun hm => ?_⟩
  simp [qualifiesAsAccumulation, hs]
  omega

/-- C7, witness: the all-undefined row with min score 1. -/
theorem C7_undefined_rows_scoring_witness :
    accumulationScore ⟨1, 1, 1, 30, -1, 1⟩ ⟨none, none, none, none, none, none⟩ = 0 ∧
    qualifiesAsAccumulation ⟨1, 1, 1, 30, -1, 1⟩ 1 ⟨none, none, none, none, none, none⟩ = false := by
  have h := C7_undefined_rows_scoring ⟨1, 1, 1, 30, -1, 1⟩ 1
    ⟨none, none, none, none, none, none⟩
    ⟨rfl, rfl, rfl, rfl, rfl, rfl⟩
  exact ⟨h.1, h.2 (by decide)⟩

/-! ### C10 -/

/-- Three candles whose last one (time 2) both breaks out of the zone and
ends the series. -/
def demoEndDf : List Candle :=
  [⟨0, 101, 100, 100⟩, ⟨1, 101, 100, 101⟩, ⟨2, 107, 100, 106⟩]

/-- A zone ending at the last candle of demoEndDf, with bounds [100, 105]. -/
def demoEndZone : Zone := ⟨0, 0, 2, 105, 100⟩

/-- Backtest parameters with trailing disabled, sl_method low, rr 2. -/
def demoParams : BtParams :=
  { slMethod := SlMethod.lowMethod, rrMin := 2, lookbackBarsForTp := 0
  , useTrailingStop := false, trailingActivateRr := 1, trailingMode := TrailMode.offMode
  , trailingBufferPct := 0, trailingStepPct := 1, capital := 300, riskPerTrade := 2 }

/-- The trade _calc_levels plans for demoEndZone: a LONG entered on the
close 106 of the final candle, stop at the zone low 100, raw-target
take-profit 118. -/
def demoEndLevels : TradeLevels :=
  { direction := Direction.long, entryPrice := 106, entryTime := 2, stopLoss := 100
  , takeProfit := 118, positionSize := 100, riskAmount := 600, riskPrice := 6
  , rewardPrice := 12, riskReward := 2, zoneId := 0 }

/-- _calc_levels finds the breakout of demoEndZone at the final candle. -/
lemma demoEnd_calcLevels : calcLevels demoEndDf demoParams demoEndZone = some demoEndLevels := by
  norm_num [calcLevels, findBreakout, findBreakoutAfter, engineLongBreakout,
    engineShortBreakout, takeProfitLong, tpCandidatesLong, rawTargetLong, pyTail,
    demoEndDf, demoEndZone, demoParams, demoEndLevels, List.filter]

/-- backtest_zone returns no trade on demoEndZone (the entry candle is the
last of the series). -/
lemma demoEnd_backtestZone : backtestZone demoEndDf demoParams demoEndZone = none := by
  simp only [backtestZone, demoEnd_calcLevels]
  norm_num [getLoc, demoEndDf, demoEndLevels]

/-- C10, counterexample: for the zone whose breakout candle is the zone's
own final candle and also the final candle of the series, the simulator
does return no trade, but simulate_all tallies the zone under
no_next_candle (there is no candle after the zone end), not under zones
without breakout as the claim states: the counters come out total 1,
no_next_candle 1, successful 0, derived zones-without-breakout 0. -/
theorem C10_last_candle_breakout_counterexample :
    calcLevels demoEndDf demoParams demoEndZone = some demoEndLevels ∧
    backtestZone demoEndDf demoParams demoEndZone = none ∧
    simulateAllStats demoEndDf demoParams [demoEndZone] =
      { totalZones := 1, noNextCandle := 1, successfulTrades := 0 } ∧
    zonesWithoutBreakout (simulateAllStats demoEndDf demoParams [demoEndZone]) = 0 := by
  have hstats : simulateAllStats demoEndDf demoParams [demoEndZone] =
      { totalZones := 1, noNextCandle := 1, successfulTrades := 0 } := by
    simp only [simulateAllStats, List.foldl, List.length, simStatsStep, demoEnd_backtestZone]
    norm_num [demoEndDf, demoEndZone, List.filter]
  exact ⟨demoEnd_calcLevels, demoEnd_backtestZone, hstats,
    by simp [zonesWithoutBreakout, hstats]⟩

/-! ### C9 -/

/-- C9: when the (tick-rounded) requested stop is within the minimum
safety distance max(2 ticks, 0.01 percent of price) of the current price,
or beyond it, replace_stop_loss rejects before issuing any exchange call
(no cancel, no placement), and the trailing manager's update_stop_loss
keeps the old stop and reports failure as an ordinary Boolean, for both a
LONG (SELL-side stop) and a SHORT (BUY-side stop) position. -/
theorem C9_stop_replacement_rejection (tickSize newStop currentPrice : ℚ) (st : TrailState) :
    (currentPrice - max (tickSize * 2) (currentPrice * (1/10000)) ≤ roundPrice tickSize newStop →
      replaceStopLoss tickSize Side.sell newStop currentPrice = (none, []) ∧
      managerUpdateStopLoss tickSize Direction.long st newStop currentPrice = (st, false, [])) ∧
    (roundPrice tickSize newStop ≤ currentPrice + max (tickSize * 2) (currentPrice * (1/10000)) →
      replaceStopLoss tickSize Side.buy newStop currentPrice = (none, []) ∧
      managerUpdateStopLoss tickSize Direction.short st newStop currentPrice = (st, false, [])) := by
  constructor
  · intro h
    have hrej : replaceStopLoss tickSize Side.sell newStop currentPrice = (none, []) := by
      simp only [replaceStopLoss, decide_eq_true h]
      rfl
    refine ⟨hrej, ?_⟩
    by_cases hd : |newStop - st.stop| ≤ 1/100
    · unfold managerUpdateStopLoss
      rw [if_pos hd]
    · unfold managerUpdateStopLoss
      rw [if_neg hd]
      simp only [hrej]
  · intro h
    have hrej : replaceStopLoss tickSize Side.buy newStop currentPrice = (none, []) := by
      simp only [replaceStopLoss, decide_eq_true h]
      rfl
    refine ⟨hrej, ?_⟩
    by_cases hd : |newStop - st.stop| ≤ 1/100
    · unfold managerUpdateStopLoss
      rw [if_pos hd]
    · unfold managerUpdateStopLoss
      rw [if_neg hd]
      simp only [hrej]

/-- C9, witness: tick 2, current price 100, requested stop 99 (rounded to
98, inside the safety distance 4): rejected with no actions, old stop 95
kept. -/
theorem C9_stop_replacement_rejection_witness :
    replaceStopLoss 2 Side.sell 99 100 = (none, []) ∧
    managerUpdateStopLoss 2 Direction.long ⟨95, true, 0⟩ 99 100 = (⟨95, true, 0⟩, false, []) := by
  exact (C9_stop_replacement_rejection 2 99 100 ⟨95, true, 0⟩).1
    (by norm_num [roundPrice, roundStep])

/-! ### C5 -/

/-- C5: at any bar of the exit scan (any reachable trailing state), if the
take-profit condition and the stop condition are both satisfied against
the bar's updated stop, the scan resolves the trade as a WIN at the
take-profit price on that bar, for both LONG and SHORT -- the TP check is
evaluated first. -/
theorem C5_tp_priority (cfg : TrailCfg) (takeProfit originalStop : ℚ) (st : TrailState)
    (c : Candle) (rest : List Candle) :
    (cfg.dir = Direction.long → takeProfit ≤ c.high →
      c.low ≤ (btTrailUpdate cfg st c).stop →
      scanLoop cfg takeProfit originalStop st (c :: rest) =
        some { result := TradeResult.win, exitTime := c.time, exitPrice := takeProfit
             , reason := ExitReason.tp }) ∧
    (cfg.dir = Direction.short → c.low ≤ takeProfit →
      (btTrailUpdate cfg st c).stop ≤ c.high →
      scanLoop cfg takeProfit originalStop st (c :: rest) =
        some { result := TradeResult.win, exitTime := c.time, exitPrice := takeProfit
             , reason := ExitReason.tp }) := by
  constructor
  · intro hd htp _hsl
    rw [scanLoop, hd]
    unfold evalExit
    rw [if_pos htp]
  · intro hd htp _hsl
    rw [scanLoop, hd]
    unfold evalExit
    rw [if_pos htp]

/-- A trailing configuration with trailing disabled, as backtest_zone
builds it when use_trailing_stop is off. -/
def demoOffCfg : TrailCfg :=
  { dir := Direction.long, entry := 100, initialStop := 95, useTrail := false
  , mode := TrailMode.offMode, bufPct := 0, stepPct := 1, threshold := 105 }

/-- C5, witness: a bar with high 120 above the take-profit 110 and low 90
below the stop 95 resolves as a WIN at 110. -/
theorem C5_tp_priority_witness :
    scanLoop demoOffCfg 110 95 ⟨95, false, 0⟩ [⟨1, 120, 90, 100⟩] =
      some { result := TradeResult.win, exitTime := 1, exitPrice := 110
           , reason := ExitReason.tp } :=
  (C5_tp_priority demoOffCfg 110 95 ⟨95, false, 0⟩ ⟨1, 120, 90, 100⟩ []).1 rfl
    (by norm_num) (by norm_num [btTrailUpdate, demoOffCfg])

/-! ### C2 -/

/-- C2 (amended): the backtest engine flags a LONG breakout on a candle iff
high > zone high and close > zone high (SHORT iff low < zone low and
close < zone low), exactly as claimed; the live detector flags a LONG
breakout iff the candle closes at or after the zone end, its low lies
inside the zone bounds and its close clears the zone high (SHORT
symmetric with the high inside the bounds), so the claimed equivalence
holds for the engine but the detector additionally requires the wick to
start inside the zone; in both, a candle whose close is back inside the
zone is never flagged. -/
theorem C2_breakout_conditions (zoneHigh zoneLow : ℚ) (zoneEnd : ℤ) (c : Candle)
    (lc : LiveCandle) (hz : zoneLow ≤ zoneHigh) :
    (engineLongBreakout zoneHigh c = true ↔ zoneHigh < c.high ∧ zoneHigh < c.close) ∧
    (engineShortBreakout zoneLow c = true ↔ c.low < zoneLow ∧ c.close < zoneLow) ∧
    (detectBreakout zoneHigh zoneLow zoneEnd lc = some Direction.long ↔
      zoneEnd ≤ lc.closeTime ∧ zoneLow ≤ lc.low ∧ lc.low ≤ zoneHigh ∧ zoneHigh < lc.close) ∧
    (detectBreakout zoneHigh zoneLow zoneEnd lc = some Direction.short ↔
      zoneEnd ≤ lc.closeTime ∧ zoneLow ≤ lc.high ∧ lc.high ≤ zoneHigh ∧ lc.close < zoneLow) ∧
    (zoneLow ≤ c.close → c.close ≤ zoneHigh →
      engineLongBreakout zoneHigh c = false ∧ engineShortBreakout zoneLow c = false) ∧
    (zoneLow ≤ lc.close → lc.close ≤ zoneHigh →
      detectBreakout zoneHigh zoneLow zoneEnd lc = none) := by
  refine ⟨?_, ?_, ?_, ?_, ?_, ?_⟩
  · simp [engineLongBreakout]
  · simp [engineShortBreakout]
  · unfold detectBreakout
    split_ifs with h1 h2 h3
    · simp only [reduceCtorEq, false_iff]
      intro hR
      omega
    · simp only [Option.some.injEq, true_iff]
      exact ⟨by omega, h2.1, h2.2.1, h2.2.2⟩
    · simp only [Option.some.injEq, reduceCtorEq, false_iff]
      intro hR
      exact h2 ⟨hR.2.1, hR.2.2.1, hR.2.2.2⟩
    · simp only [reduceCtorEq, false_iff]
      intro hR
      exact h2 ⟨hR.2.1, hR.2.2.1, hR.2.2.2⟩
  · unfold detectBreakout
    split_ifs with h1 h2 h3
    · simp only [reduceCtorEq, false_iff]
      intro hR
      omega
    · simp only [Option.some.injEq, reduceCtorEq, false_iff]
      intro hR
      linarith [h2.2.2, hR.2.2.2]
    · simp only [Option.some.injEq, true_iff]
      exact ⟨by omega, h3.1, h3.2.1, h3.2.2⟩
    · simp only [reduceCtorEq, false_iff]
      intro hR
      exact h3 ⟨hR.2.1, hR.2.2.1, hR.2.2.2⟩
  · intro hc1 hc2
    constructor
    · simp only [engineLongBreakout, Bool.and_eq_false_iff, decide_eq_false_iff_not, not_lt]
      right
      linarith
    · simp only [engineShortBreakout, Bool.and_eq_false_iff, decide_eq_false_iff_not, not_lt]
      right
      linarith
  · intro hc1 hc2
    unfold detectBreakout
    split_ifs with h1 h2 h3
    · rfl
    · exfalso
      linarith [h2.2.2]
    · exfalso
      linarith [h3.2.2]
    · rfl

/-- C2, witness: zone [100, 105], engine candle (high 107, close 106)
flagged LONG; live candle with low 101 inside the zone and close 106
flagged LONG by the detector; the in-zone close 104 flags nothing. -/
theorem C2_breakout_conditions_witness :
    (engineLongBreakout 105 ⟨2, 107, 100, 106⟩ = true ↔
      (105 : ℚ) < 107 ∧ (105 : ℚ) < 106) ∧
    (detectBreakout 105 100 0 ⟨5, 107, 101, 106⟩ = some Direction.long ↔
      (0 : ℤ) ≤ 5 ∧ (100 : ℚ) ≤ 101 ∧ (101 : ℚ) ≤ 105 ∧ (105 : ℚ) < 106) ∧
    detectBreakout 105 100 0 ⟨5, 107, 101, 104⟩ = none := by
  have h1 := C2_breakout_conditions 105 100 0 (⟨2, 107, 100, 106⟩ : Candle)
    (⟨5, 107, 101, 106⟩ : LiveCandle) (by norm_num)
  have h2 := C2_breakout_conditions 105 100 0 (⟨2, 107, 100, 106⟩ : Candle)
    (⟨5, 107, 101, 104⟩ : LiveCandle) (by norm_num)
  exact ⟨h1.1, h1.2.2.1, h2.2.2.2.2.2 (by norm_num) (by norm_num)⟩

/-! ### Helper lemmas about the trailing updates -/

/-- check_activation never changes the stored stop. -/
lemma liveCheckActivation_stop (cfg : TrailCfg) (st : TrailState) (c : Candle) :
    (liveCheckActivation cfg st c).stop = st.stop := by
  unfold liveCheckActivation
  cases hd : cfg.dir <;> dsimp only <;> split_ifs <;> rfl

/-- check_activation never lowers the activation flag. -/
lemma liveCheckActivation_active (cfg : TrailCfg) (st : TrailState) (c : Candle)
    (h : st.active = true) : (liveCheckActivation cfg st c).active = true := by
  unfold liveCheckActivation
  split_ifs with h1 <;> simp_all

/-- The backtest per-bar update never lowers the stop of a LONG trade. -/
lemma btTrailUpdate_mono_long (cfg : TrailCfg) (st : TrailState) (c : Candle)
    (hd : cfg.dir = Direction.long) : st.stop ≤ (btTrailUpdate cfg st c).stop := by
  unfold btTrailUpdate
  cases hmode : cfg.mode <;> rw [hd] <;> dsimp only <;> split_ifs <;>
    simp [le_max_left]

/-- The backtest per-bar update never raises the stop of a SHORT trade. -/
lemma btTrailUpdate_mono_short (cfg : TrailCfg) (st : TrailState) (c : Candle)
    (hd : cfg.dir = Direction.short) : (btTrailUpdate cfg st c).stop ≤ st.stop := by
  unfold btTrailUpdate
  cases hmode : cfg.mode <;> rw [hd] <;> dsimp only <;> split_ifs <;>
    simp [min_le_left]

/-- calculate_new_stop proposes only stops at or above the current one for
a LONG trade. -/
lemma liveCalculateNewStop_fst_long (cfg : TrailCfg) (st : TrailState) (c : Candle)
    (hd : cfg.dir = Direction.long) : st.stop ≤ (liveCalculateNewStop cfg st c).1 := by
  unfold liveCalculateNewStop
  cases hmode : cfg.mode <;> rw [hd] <;> dsimp only <;> split_ifs <;>
    simp [le_max_left]

/-- calculate_new_stop proposes only stops at or below the current one for
a SHORT trade. -/
lemma liveCalculateNewStop_fst_short (cfg : TrailCfg) (st : TrailState) (c : Candle)
    (hd : cfg.dir = Direction.short) : (liveCalculateNewStop cfg st c).1 ≤ st.stop := by
  unfold liveCalculateNewStop
  cases hmode : cfg.mode <;> rw [hd] <;> dsimp only <;> split_ifs <;>
    simp [min_le_left]

/-- One TrailingStopManager iteration never lowers the stop of a LONG
trade, whatever the mode and whether the replacement succeeded. -/
lemma liveManagerStep_mono_long (cfg : TrailCfg) (st : TrailState) (co : Candle × Bool)
    (hd : cfg.dir = Direction.long) : st.stop ≤ (liveManagerStep cfg st co).stop := by
  have hs1 := liveCheckActivation_stop cfg st co.1
  have hcalc := liveCalculateNewStop_fst_long cfg (liveCheckActivation cfg st co.1) co.1 hd
  unfold liveManagerStep
  dsimp only
  split_ifs with h
  · exact hs1 ▸ hcalc
  · exact hs1.symm.le

/-- One TrailingStopManager iteration never raises the stop of a SHORT
trade. -/
lemma liveManagerStep_mono_short (cfg : TrailCfg) (st : TrailState) (co : Candle × Bool)
    (hd : cfg.dir = Direction.short) : (liveManagerStep cfg st co).stop ≤ st.stop := by
  have hs1 := liveCheckActivation_stop cfg st co.1
  have hcalc := liveCalculateNewStop_fst_short cfg (liveCheckActivation cfg st co.1) co.1 hd
  unfold liveManagerStep
  dsimp only
  split_ifs with h
  · exact hs1 ▸ hcalc
  · exact hs1.le

/-- One main_live iteration in bar_extremes mode never lowers the stop of
a LONG trade. -/
lemma mainLiveStep_mono_long (cfg : TrailCfg) (st : TrailState) (co : Candle × Bool)
    (hd : cfg.dir = Direction.long) (hm : cfg.mode = TrailMode.barExtremes) :
    st.stop ≤ (mainLiveStep cfg st co).stop := by
  have hs1 := liveCheckActivation_stop cfg st co.1
  unfold mainLiveStep
  rw [hm, hd]
  dsimp only
  split_ifs <;> simp [hs1, le_sup_left]

/-- One main_live iteration in bar_extremes mode never raises the stop of
a SHORT trade. -/
lemma mainLiveStep_mono_short (cfg : TrailCfg) (st : TrailState) (co : Candle × Bool)
    (hd : cfg.dir = Direction.short) (hm : cfg.mode = TrailMode.barExtremes) :
    (mainLiveStep cfg st co).stop ≤ st.stop := by
  have hs1 := liveCheckActivation_stop cfg st co.1
  unfold mainLiveStep
  rw [hm, hd]
  dsimp only
  split_ifs <;> simp [hs1, inf_le_left]

/-- Stops only improve along a fold whose step only improves them. -/
lemma foldl_stop_le {α : Type} (f : TrailState → α → TrailState)
    (hf : ∀ st a, st.stop ≤ (f st a).stop) :
    ∀ (l : List α) (st : TrailState), st.stop ≤ (List.foldl f st l).stop := by
  intro l
  induction l with
  | nil => intro st; exact le_refl _
  | cons a t ih => intro st; exact le_trans (hf st a) (ih (f st a))

/-- Dual of foldl_stop_le. -/
lemma foldl_stop_ge {α : Type} (f : TrailState → α → TrailState)
    (hf : ∀ st a, (f st a).stop ≤ st.stop) :
    ∀ (l : List α) (st : TrailState), (List.foldl f st l).stop ≤ st.stop := by
  intro l
  induction l with
  | nil => intro st; exact le_refl _
  | cons a t ih => intro st; exact le_trans (ih (f st a)) (hf st a)

/-! ### C3 -/

/-- C3 (amended): the ratchet holds for the backtest per-bar loop and for
the live TrailingStopManager in every trailing mode and for every candle
sequence (LONG stops never decrease, SHORT stops never increase), and for
the main_live loop in bar_extremes mode; it fails only for the main_live
loop in step mode, whose safety clamp can pull the stop back through the
current close (see the counterexample). -/
theorem C3_ratchet_monotonicity (cfg : TrailCfg) (st : TrailState)
    (candles : List Candle) (cos : List (Candle × Bool)) :
    (cfg.dir = Direction.long →
      st.stop ≤ (btTrailFold cfg st candles).stop ∧
      st.stop ≤ (liveManagerFold cfg st cos).stop ∧
      (cfg.mode = TrailMode.barExtremes → st.stop ≤ (mainLiveFold cfg st cos).stop)) ∧
    (cfg.dir = Direction.short →
      (btTrailFold cfg st candles).stop ≤ st.stop ∧
      (liveManagerFold cfg st cos).stop ≤ st.stop ∧
      (cfg.mode = TrailMode.barExtremes → (mainLiveFold cfg st cos).stop ≤ st.stop)) := by
  constructor
  · intro hd
    refine ⟨?_, ?_, fun hm => ?_⟩
    · exact foldl_stop_le _ (fun s a => btTrailUpdate_mono_long cfg s a hd) candles st
    · exact foldl_stop_le _ (fun s a => liveManagerStep_mono_long cfg s a hd) cos st
    · exact foldl_stop_le _ (fun s a => mainLiveStep_mono_long cfg s a hd hm) cos st
  · intro hd
    refine ⟨?_, ?_, fun hm => ?_⟩
    · exact foldl_stop_ge _ (fun s a => btTrailUpdate_mono_short cfg s a hd) candles st
    · exact foldl_stop_ge _ (fun s a => liveManagerStep_mono_short cfg s a hd) cos st
    · exact foldl_stop_ge _ (fun s a => mainLiveStep_mono_short cfg s a hd hm) cos st

/-- A LONG bar_extremes trailing configuration for the witnesses. -/
def demoBarCfg : TrailCfg :=
  { dir := Direction.long, entry := 100, initialStop := 95, useTrail := true
  , mode := TrailMode.barExtremes, bufPct := 0, stepPct := 1, threshold := 105 }

/-- C3, witness: the ratchet conclusions at a concrete bar_extremes LONG
configuration and one-candle trace. -/
theorem C3_ratchet_monotonicity_witness :
    demoStepState.stop ≤ (btTrailFold demoBarCfg demoStepState [⟨1, 107, 100, 106⟩]).stop ∧
    demoStepState.stop ≤
      (liveManagerFold demoBarCfg demoStepState [(⟨1, 107, 100, 106⟩, true)]).stop ∧
    demoStepState.stop ≤
      (mainLiveFold demoBarCfg demoStepState [(⟨1, 107, 100, 106⟩, true)]).stop := by
  have h := (C3_ratchet_monotonicity demoBarCfg demoStepState [⟨1, 107, 100, 106⟩]
    [(⟨1, 107, 100, 106⟩, true)]).1 rfl
  exact ⟨h.1, h.2.1, h.2.2 rfl⟩

/-! ### C4 (amended) -/

/-- C4 (amended): the safety clamp exists only in the main_live loop: in
step mode, whenever main_live computes and stores a new stop it is strictly
below the candle close for LONG (strictly above for SHORT, given a positive
close), otherwise the stop is left unchanged; the backtest simulator and
TrailingStopManager apply no such clamp, and their step-mode stop can land
at or beyond the current close (see the counterexample). -/
theorem C4_main_live_step_clamp (cfg : TrailCfg) (st : TrailState) (c : Candle) (ok : Bool)
    (hm : cfg.mode = TrailMode.step) :
    (cfg.dir = Direction.long → 0 < c.close →
      (mainLiveStep cfg st (c, ok)).stop < c.close ∨
      (mainLiveStep cfg st (c, ok)).stop = st.stop) ∧
    (cfg.dir = Direction.short → 0 < c.close →
      c.close < (mainLiveStep cfg st (c, ok)).stop ∨
      (mainLiveStep cfg st (c, ok)).stop = st.stop) := by
  have hs1 := liveCheckActivation_stop cfg st c
  constructor
  · intro hd hc
    unfold mainLiveStep
    rw [hm, hd]
    dsimp only
    split_ifs with h1 h2 h3 h4 h5 h6 h7 <;>
      first
        | (right; exact hs1)
        | (left; linarith)
  · intro hd hc
    unfold mainLiveStep
    rw [hm, hd]
    dsimp only
    split_ifs with h1 h2 h3 h4 h5 h6 h7 <;>
      first
        | (right; exact hs1)
        | (left; linarith)

/-- C4, witness: the clamp at a concrete main_live step update (stop 105,
candle close 105.05, step count rising from 10 to 12). -/
theorem C4_main_live_step_clamp_witness :
    (mainLiveStep demoStepCfg ⟨105, true, 10⟩ (⟨3, 112, 105, 2101/20⟩, true)).stop <
      (2101/20 : ℚ) ∨
    (mainLiveStep demoStepCfg ⟨105, true, 10⟩ (⟨3, 112, 105, 2101/20⟩, true)).stop = 105 :=
  (C4_main_live_step_clamp demoStepCfg ⟨105, true, 10⟩ ⟨3, 112, 105, 2101/20⟩ true rfl).1
    rfl (by norm_num)

/-! ### C8 -/

/-- Python min over h :: t is a lower bound of h and of every element. -/
lemma listMin_spec : ∀ (t : List ℚ) (h : ℚ), listMin h t ≤ h ∧ ∀ x ∈ t, listMin h t ≤ x := by
  intro t
  induction t with
  | nil =>
    intro h
    exact ⟨le_refl _, by simp⟩
  | cons a t ih =>
    intro h
    have h1 := ih (min h a)
    refine ⟨le_trans h1.1 (min_le_left _ _), ?_⟩
    intro x hx
    rcases List.mem_cons.mp hx with rfl | hx
    · exact le_trans h1.1 (min_le_right _ _)
    · exact h1.2 x hx

/-- Python min over h :: t is h or one of the elements of t. -/
lemma listMin_mem : ∀ (t : List ℚ) (h : ℚ), listMin h t = h ∨ listMin h t ∈ t := by
  intro t
  induction t with
  | nil =>
    intro h
    exact Or.inl rfl
  | cons a t ih =>
    intro h
    have step : listMin h (a :: t) = listMin (min h a) t := rfl
    rcases ih (min h a) with hm | hm
    · rcases le_total h a with hha | hha
      · left
        rw [step, hm, min_eq_left hha]
      · right
        rw [step, hm, min_eq_right hha]
        exact List.mem_cons_self a t
    · right
      rw [step]
      exact List.mem_cons_of_mem a hm

/-- Python max over h :: t is an upper bound of h and of every element. -/
lemma listMax_spec : ∀ (t : List ℚ) (h : ℚ), h ≤ listMax h t ∧ ∀ x ∈ t, x ≤ listMax h t := by
  intro t
  induction t with
  | nil =>
    intro h
    exact ⟨le_refl _, by simp⟩
  | cons a t ih =>
    intro h
    have h1 := ih (max h a)
    refine ⟨le_trans (le_max_left _ _) h1.1, ?_⟩
    intro x hx
    rcases List.mem_cons.mp hx with rfl | hx
    · exact le_trans (le_max_right _ _) h1.1
    · exact h1.2 x hx

/-- Python max over h :: t is h or one of the elements of t. -/
lemma listMax_mem : ∀ (t : List ℚ) (h : ℚ), listMax h t = h ∨ listMax h t ∈ t := by
  intro t
  induction t with
  | nil =>
    intro h
    exact Or.inl rfl
  | cons a t ih =>
    intro h
    have step : listMax h (a :: t) = listMax (max h a) t := rfl
    rcases ih (max h a) with hm | hm
    · rcases le_total h a with hha | hha
      · right
        rw [step, hm, max_eq_right hha]
        exact List.mem_cons_self a t
      · left
        rw [step, hm, max_eq_left hha]
    · right
      rw [step]
      exact List.mem_cons_of_mem a hm

/-- C8: the planned take-profit is the raw target entry +- rr * risk when
no prior extreme beyond it exists among the lookback candles before the
zone start, and otherwise the nearest qualifying prior extreme (the
minimum qualifying prior high for LONG, the maximum qualifying prior low
for SHORT); and every trade planned by _calc_levels carries exactly this
take-profit, computed over the candles before the zone start. -/
theorem C8_take_profit_selection :
    (∀ (entry stopLoss rrMin : ℚ) (lookback : ℕ) (dataBefore : List Candle),
      (tpCandidatesLong entry stopLoss rrMin lookback dataBefore = [] →
        takeProfitLong entry stopLoss rrMin lookback dataBefore =
          rawTargetLong entry stopLoss rrMin) ∧
      (tpCandidatesLong entry stopLoss rrMin lookback dataBefore ≠ [] →
        takeProfitLong entry stopLoss rrMin lookback dataBefore ∈
          tpCandidatesLong entry stopLoss rrMin lookback dataBefore ∧
        ∀ x ∈ tpCandidatesLong entry stopLoss rrMin lookback dataBefore,
          takeProfitLong entry stopLoss rrMin lookback dataBefore ≤ x)) ∧
    (∀ (entry stopLoss rrMin : ℚ) (lookback : ℕ) (dataBefore : List Candle),
      (tpCandidatesShort entry stopLoss rrMin lookback dataBefore = [] →
        takeProfitShort entry stopLoss rrMin lookback dataBefore =
          rawTargetShort entry stopLoss rrMin) ∧
      (tpCandidatesShort entry stopLoss rrMin lookback dataBefore ≠ [] →
        takeProfitShort entry stopLoss rrMin lookback dataBefore ∈
          tpCandidatesShort entry stopLoss rrMin lookback dataBefore ∧
        ∀ x ∈ tpCandidatesShort entry stopLoss rrMin lookback dataBefore,
          x ≤ takeProfitShort entry stopLoss rrMin lookback dataBefore)) ∧
    (∀ (df : List Candle) (p : BtParams) (z : Zone) (tr : TradeLevels),
      calcLevels df p z = some tr →
      tr.takeProfit =
        match tr.direction with
        | Direction.long =>
          takeProfitLong tr.entryPrice tr.stopLoss p.rrMin p.lookbackBarsForTp
            (df.filter (fun c => c.time < z.zstart))
        | Direction.short =>
          takeProfitShort tr.entryPrice tr.stopLoss p.rrMin p.lookbackBarsForTp
            (df.filter (fun c => c.time < z.zstart))) := by
  refine ⟨?_, ?_, ?_⟩
  · intro entry stopLoss rrMin lookback dataBefore
    constructor
    · intro hq
      unfold takeProfitLong
      rw [hq]
    · intro hq
      unfold takeProfitLong
      cases hc : tpCandidatesLong entry stopLoss rrMin lookback dataBefore with
      | nil => exact absurd hc hq
      | cons a t =>
        dsimp only
        constructor
        · rcases listMin_mem t a with hm | hm
          · rw [hm]
            exact List.mem_cons_self a t
          · exact List.mem_cons_of_mem a hm
        · intro x hx
          rcases List.mem_cons.mp hx with hxa | hx
          · rw [hxa]
            exact (listMin_spec t a).1
          · exact (listMin_spec t a).2 x hx
  · intro entry stopLoss rrMin lookback dataBefore
    constructor
    · intro hq
      unfold takeProfitShort
      rw [hq]
    · intro hq
      unfold takeProfitShort
      cases hc : tpCandidatesShort entry stopLoss rrMin lookback dataBefore with
      | nil => exact absurd hc hq
      | cons a t =>
        dsimp only
        constructor
        · rcases listMax_mem t a with hm | hm
          · rw [hm]
            exact List.mem_cons_self a t
          · exact List.mem_cons_of_mem a hm
        · intro x hx
          rcases List.mem_cons.mp hx with hxa | hx
          · rw [hxa]
            exact (listMax_spec t a).1
          · exact (listMax_spec t a).2 x hx
  · intro df p z tr h
    unfold calcLevels at h
    cases hfb : findBreakout df z with
    | none =>
      rw [hfb] at h
      exact absurd h (by simp)
    | some dc =>
      obtain ⟨dir, bc⟩ := dc
      rw [hfb] at h
      dsimp only at h
      rw [Option.some.injEq] at h
      subst h
      cases dir <;> simp

/-- Prior candles whose highs 111 and 115 both clear the LONG raw target
110 (entry 100, stop 90, rr 1). -/
def demoTpBefore : List Candle :=
  [⟨0, 111, 95, 100⟩, ⟨1, 115, 96, 100⟩]

/-- C8, witness: with prior highs 111 and 115 beyond the raw target 110,
the take-profit is a qualifying prior high and is the nearest (least) one. -/
theorem C8_take_profit_selection_witness :
    takeProfitLong 100 90 1 5 demoTpBefore ∈ tpCandidatesLong 100 90 1 5 demoTpBefore ∧
    ∀ x ∈ tpCandidatesLong 100 90 1 5 demoTpBefore,
      takeProfitLong 100 90 1 5 demoTpBefore ≤ x :=
  (C8_take_profit_selection.1 100 90 1 5 demoTpBefore).2
    (by
      norm_num [tpCandidatesLong, rawTargetLong, pyTail, demoTpBefore, List.filter]
      simp)

/-! ### C6 -/

/-- An exit produced by the per-bar evaluation carries the bar's own
timestamp. -/
lemma evalExit_time (dir : Direction) (useTrail : Bool) (tp orig cur : ℚ) (c : Candle)
    (e : ExitInfo) (h : evalExit dir useTrail tp orig cur c = some e) : e.exitTime = c.time := by
  unfold evalExit at h
  cases dir <;> split_ifs at h <;>
    first
      | (rw [Option.some.injEq] at h; rw [← h])
      | exact absurd h (by simp)

/-- An exit found by the scan happens at the timestamp of one of the
scanned candles. -/
lemma scanLoop_time_mem (cfg : TrailCfg) (tp orig : ℚ) :
    ∀ (future : List Candle) (st : TrailState) (e : ExitInfo),
      scanLoop cfg tp orig st future = some e → ∃ c ∈ future, e.exitTime = c.time := by
  intro future
  induction future with
  | nil =>
    intro st e h
    rw [scanLoop] at h
    exact absurd h (by simp)
  | cons c rest ih =>
    intro st e h
    rw [scanLoop] at h
    cases hev : evalExit cfg.dir cfg.useTrail tp orig (btTrailUpdate cfg st c).stop c with
    | some e0 =>
      rw [hev] at h
      rw [Option.some.injEq] at h
      subst h
      exact ⟨c, List.mem_cons_self c rest, evalExit_time _ _ _ _ _ _ _ hev⟩
    | none =>
      rw [hev] at h
      obtain ⟨c', hc', he⟩ := ih _ _ h
      exact ⟨c', List.mem_cons_of_mem c hc', he⟩

/-- getLoc finds the position of the candle with the given timestamp. -/
lemma getLoc_spec : ∀ (df : List Candle) (t : ℤ) (i : ℕ),
    getLoc df t = some i → ∃ h : i < df.length, (df.get ⟨i, h⟩).time = t := by
  intro df
  induction df with
  | nil =>
    intro t i h
    rw [getLoc] at h
    exact absurd h (by simp)
  | cons c rest ih =>
    intro t i h
    rw [getLoc] at h
    split_ifs at h with hc
    · rw [Option.some.injEq] at h
      subst h
      exact ⟨by simp, hc⟩
    · obtain ⟨j, hj, hji⟩ := Option.map_eq_some'.mp h
      obtain ⟨hlt, hts⟩ := ih t j hj
      subst hji
      exact ⟨by simpa using Nat.succ_lt_succ hlt, hts⟩

/-- In a strictly time-sorted series, every candle after position i has a
strictly later timestamp than the candle at i. -/
lemma pairwise_time_lt_drop : ∀ (df : List Candle),
    List.Pairwise (fun a b => a.time < b.time) df →
    ∀ (i : ℕ) (hi : i < df.length) (a : Candle), a ∈ df.drop (i+1) →
      (df.get ⟨i, hi⟩).time < a.time := by
  intro df
  induction df with
  | nil =>
    intro _ i hi
    simp at hi
  | cons c rest ih =>
    intro hp i hi a ha
    cases i with
    | zero =>
      exact (List.pairwise_cons.mp hp).1 a (by simpa using ha)
    | succ i =>
      exact ih (List.pairwise_cons.mp hp).2 i (by simpa using hi) a (by simpa using ha)

/-- C6: in a strictly time-sorted series, every trade the simulator
returns exits strictly after it entered: the exit scan starts at the
candle after the entry candle and every possible exit (TP, stop, or the
unresolved OPEN fallback at the last candle) carries a timestamp from that
suffix. -/
theorem C6_exit_strictly_after_entry (df : List Candle) (p : BtParams) (z : Zone)
    (hp : List.Pairwise (fun a b => a.time < b.time) df) :
    ∀ tr : Trade, backtestZone df p z = some tr → tr.levels.entryTime < tr.exitTime := by
  intro tr h
  unfold backtestZone at h
  cases hcl : calcLevels df p z with
  | none =>
    rw [hcl] at h
    exact absurd h (by simp)
  | some lv =>
    rw [hcl] at h
    dsimp only at h
    cases hloc : getLoc df lv.entryTime with
    | none =>
      rw [hloc] at h
      exact absurd h (by simp)
    | some i =>
      rw [hloc] at h
      dsimp only at h
      split_ifs at h with hlen
      obtain ⟨hi, hti⟩ := getLoc_spec df lv.entryTime i hloc
      cases hscan : scanLoop (btTrailCfgOf p lv) lv.takeProfit lv.stopLoss
          { stop := lv.stopLoss, active := false, lastStep := 0 } (df.drop (i+1)) with
      | some e =>
        rw [hscan] at h
        dsimp only at h
        rw [Option.some.injEq] at h
        subst h
        obtain ⟨c, hc, he⟩ := scanLoop_time_mem _ _ _ _ _ e hscan
        have hlt := pairwise_time_lt_drop df hp i hi c hc
        dsimp only
        rw [he, ← hti]
        exact hlt
      | none =>
        rw [hscan] at h
        cases hlast : (df.drop (i+1)).getLast? with
        | none =>
          rw [hlast] at h
          exact absurd h (by simp)
        | some lc =>
          rw [hlast] at h
          dsimp only at h
          rw [Option.some.injEq] at h
          subst h
          obtain ⟨hne, hEq⟩ := List.mem_getLast?_eq_getLast (Option.mem_def.mpr hlast)
          have hmem : lc ∈ df.drop (i+1) := hEq ▸ List.getLast_mem hne
          have hlt := pairwise_time_lt_drop df hp i hi lc hmem
          dsimp only
          rw [← hti]
          exact hlt

/-- A four-candle series: a flat zone over the first two candles, the
breakout candle at time 2, and one more candle that triggers no exit. -/
def demoDfScan : List Candle :=
  [⟨0, 101, 100, 100⟩, ⟨1, 101, 100, 101⟩, ⟨2, 105, 101, 104⟩, ⟨3, 105, 103, 104⟩]

/-- The zone over the first two candles of demoDfScan. -/
def demoZoneScan : Zone := ⟨0, 0, 1, 101, 100⟩

/-- The trade backtest_zone produces on demoDfScan: LONG entry 104 at
time 2, stop 100, take-profit 112, left OPEN at the close 104 of time 3. -/
def demoScanTrade : Trade :=
  { levels :=
      { direction := Direction.long, entryPrice := 104, entryTime := 2, stopLoss := 100
      , takeProfit := 112, positionSize := 150, riskAmount := 600, riskPrice := 4
      , rewardPrice := 8, riskReward := 2, zoneId := 0 }
  , result := TradeResult.openResult
  , exitTime := 3
  , exitPrice := 104
  , reason := none
  , pnlPct := 0
  , pnlUsd := 0 }

/-- backtest_zone on the demo series produces exactly demoScanTrade. -/
lemma demoScanTrade_spec :
    backtestZone demoDfScan demoParams demoZoneScan = some demoScanTrade := by
  have hcl : calcLevels demoDfScan demoParams demoZoneScan = some demoScanTrade.levels := by
    norm_num [calcLevels, findBreakout, findBreakoutAfter, engineLongBreakout,
      engineShortBreakout, takeProfitLong, tpCandidatesLong, rawTargetLong, pyTail,
      demoDfScan, demoZoneScan, demoParams, demoScanTrade, List.filter]
  have hscan : scanLoop (btTrailCfgOf demoParams
      { direction := Direction.long, entryPrice := 104, entryTime := 2, stopLoss := 100
      , takeProfit := 112, positionSize := 150, riskAmount := 600, riskPrice := 4
      , rewardPrice := 8, riskReward := 2, zoneId := 0 }) 112 100
      { stop := 100, active := false, lastStep := 0 } [⟨3, 105, 103, 104⟩] = none := by
    norm_num [scanLoop, btTrailUpdate, evalExit, btTrailCfgOf, demoParams]
  simp only [backtestZone, hcl]
  norm_num [getLoc, demoDfScan, demoScanTrade]
  rw [hscan]
  norm_num

/-- C6, witness: the demo trade enters at time 2 and exits at time 3. -/
theorem C6_exit_strictly_after_entry_witness :
    demoScanTrade.levels.entryTime < demoScanTrade.exitTime :=
  C6_exit_strictly_after_entry demoDfScan demoParams demoZoneScan (by decide)
    demoScanTrade demoScanTrade_spec

/-! ### C1 (amended): bar_extremes tracking -/

/-- Closed form of the backtest per-bar update in LONG bar_extremes mode. -/
lemma btTrailUpdate_barLong (cfg : TrailCfg) (b : TrailState) (c : Candle)
    (hu : cfg.useTrail = true) (hm : cfg.mode = TrailMode.barExtremes)
    (hd : cfg.dir = Direction.long) :
    btTrailUpdate cfg b c =
      if b.active || decide (cfg.threshold ≤ c.high) then
        { stop := max b.stop (c.low - c.low * cfg.bufPct / 100)
        , active := true, lastStep := b.lastStep }
      else
        { stop := b.stop, active := false, lastStep := b.lastStep } := by
  unfold btTrailUpdate
  rw [hu, hm, hd]
  simp only [Bool.true_and]
  split_ifs with h
  · simp [h]
  · simp only [Bool.not_eq_true] at h
    simp [h]

/-- Closed form of the backtest per-bar update in SHORT bar_extremes mode. -/
lemma btTrailUpdate_barShort (cfg : TrailCfg) (b : TrailState) (c : Candle)
    (hu : cfg.useTrail = true) (hm : cfg.mode = TrailMode.barExtremes)
    (hd : cfg.dir = Direction.short) :
    btTrailUpdate cfg b c =
      if b.active || decide (c.low ≤ cfg.threshold) then
        { stop := min b.stop (c.high + c.high * cfg.bufPct / 100)
        , active := true, lastStep := b.lastStep }
      else
        { stop := b.stop, active := false, lastStep := b.lastStep } := by
  unfold btTrailUpdate
  rw [hu, hm, hd]
  simp only [Bool.true_and]
  split_ifs with h
  · simp [h]
  · simp only [Bool.not_eq_true] at h
    simp [h]

/-- Closed form of one TrailingStopManager iteration in LONG bar_extremes
mode with a successful replacement. -/
lemma liveManagerStep_barLong (cfg : TrailCfg) (l : TrailState) (c : Candle)
    (hm : cfg.mode = TrailMode.barExtremes) (hd : cfg.dir = Direction.long) :
    liveManagerStep cfg l (c, true) =
      if l.active || decide (cfg.threshold ≤ c.high) then
        { stop :=
            if 1/100 < |max l.stop (c.low - c.low * cfg.bufPct / 100) - l.stop|
            then max l.stop (c.low - c.low * cfg.bufPct / 100) else l.stop
        , active := true, lastStep := l.lastStep }
      else
        { stop := l.stop, active := false, lastStep := l.lastStep } := by
  unfold liveManagerStep liveCheckActivation liveCalculateNewStop
  rw [hm, hd]
  by_cases hl : l.active = true
  · simp [hl]
  · simp only [Bool.not_eq_true] at hl
    by_cases hth : decide (cfg.threshold ≤ c.high) = true
    · simp [hl, hth]
    · simp only [Bool.not_eq_true] at hth
      simp [hl, hth]

/-- Closed form of one TrailingStopManager iteration in SHORT bar_extremes
mode with a successful replacement. -/
lemma liveManagerStep_barShort (cfg : TrailCfg) (l : TrailState) (c : Candle)
    (hm : cfg.mode = TrailMode.barExtremes) (hd : cfg.dir = Direction.short) :
    liveManagerStep cfg l (c, true) =
      if l.active || decide (c.low ≤ cfg.threshold) then
        { stop :=
            if 1/100 < |min l.stop (c.high + c.high * cfg.bufPct / 100) - l.stop|
            then min l.stop (c.high + c.high * cfg.bufPct / 100) else l.stop
        , active := true, lastStep := l.lastStep }
      else
        { stop := l.stop, active := false, lastStep := l.lastStep } := by
  unfold liveManagerStep liveCheckActivation liveCalculateNewStop
  rw [hm, hd]
  by_cases hl : l.active = true
  · simp [hl]
  · simp only [Bool.not_eq_true] at hl
    by_cases hth : decide (c.low ≤ cfg.threshold) = true
    · simp [hl, hth]
    · simp only [Bool.not_eq_true] at hth
      simp [hl, hth]

/-- Arithmetic core of the tracking invariant, LONG side: applying the max
ratchet to both stops, with the live side suppressing changes of at most
0.01, keeps the live stop within 0.01 below the backtest stop. -/
lemma ratchetTrack_long (b l p : ℚ) (h1 : l ≤ b) (h2 : b - l ≤ 1/100) :
    (if 1/100 < |max l p - l| then max l p else l) ≤ max b p ∧
    max b p - (if 1/100 < |max l p - l| then max l p else l) ≤ 1/100 := by
  rcases le_total p l with hp | hp
  · rw [max_eq_left hp]
    simp only [sub_self, abs_zero]
    rw [if_neg (by norm_num)]
    refine ⟨le_trans h1 (le_max_left b p), ?_⟩
    rw [max_eq_left (le_trans hp h1)]
    exact h2
  · rw [max_eq_right hp]
    by_cases hdelta : 1/100 < |p - l|
    · rw [if_pos hdelta]
      refine ⟨le_max_right b p, ?_⟩
      rcases le_total b p with hbp | hbp
      · rw [max_eq_right hbp]
        norm_num
      · rw [max_eq_left hbp]
        linarith
    · rw [if_neg hdelta]
      push_neg at hdelta
      have hpl : p - l ≤ 1/100 := le_trans (le_abs_self _) hdelta
      refine ⟨le_trans h1 (le_max_left b p), ?_⟩
      rcases le_total b p with hbp | hbp
      · rw [max_eq_right hbp]
        linarith
      · rw [max_eq_left hbp]
        linarith

/-- Arithmetic core of the tracking invariant, SHORT side. -/
lemma ratchetTrack_short (b l p : ℚ) (h1 : b ≤ l) (h2 : l - b ≤ 1/100) :
    min b p ≤ (if 1/100 < |min l p - l| then min l p else l) ∧
    (if 1/100 < |min l p - l| then min l p else l) - min b p ≤ 1/100 := by
  rcases le_total l p with hp | hp
  · rw [min_eq_left hp]
    simp only [sub_self, abs_zero]
    rw [if_neg (by norm_num)]
    refine ⟨le_trans (min_le_left b p) h1, ?_⟩
    rw [min_eq_left (le_trans h1 hp)]
    exact h2
  · rw [min_eq_right hp]
    by_cases hdelta : 1/100 < |p - l|
    · rw [if_pos hdelta]
      refine ⟨min_le_right b p, ?_⟩
      rcases le_total p b with hbp | hbp
      · rw [min_eq_right hbp]
        norm_num
      · rw [min_eq_left hbp]
        linarith
    · rw [if_neg hdelta]
      push_neg at hdelta
      have hpl : l - p ≤ 1/100 := by
        calc l - p ≤ |l - p| := le_abs_self _
          _ = |p - l| := abs_sub_comm _ _
          _ ≤ 1/100 := hdelta
      refine ⟨le_trans (min_le_left b p) h1, ?_⟩
      rcases le_total p b with hbp | hbp
      · rw [min_eq_right hbp]
        linarith
      · rw [min_eq_left hbp]
        linarith

/-- One bar preserves the tracking invariant between the backtest state
and the live manager state in bar_extremes mode. -/
lemma trackStep_inv (cfg : TrailCfg) (hu : cfg.useTrail = true)
    (hm : cfg.mode = TrailMode.barExtremes) (b l : TrailState) (c : Candle)
    (hact : l.active = b.active)
    (hlong : cfg.dir = Direction.long → l.stop ≤ b.stop ∧ b.stop - l.stop ≤ 1/100)
    (hshort : cfg.dir = Direction.short → b.stop ≤ l.stop ∧ l.stop - b.stop ≤ 1/100) :
    (liveManagerStep cfg l (c, true)).active = (btTrailUpdate cfg b c).active ∧
    (cfg.dir = Direction.long →
      (liveManagerStep cfg l (c, true)).stop ≤ (btTrailUpdate cfg b c).stop ∧
      (btTrailUpdate cfg b c).stop - (liveManagerStep cfg l (c, true)).stop ≤ 1/100) ∧
    (cfg.dir = Direction.short →
      (btTrailUpdate cfg b c).stop ≤ (liveManagerStep cfg l (c, true)).stop ∧
      (liveManagerStep cfg l (c, true)).stop - (btTrailUpdate cfg b c).stop ≤ 1/100) := by
  cases hd : cfg.dir with
  | long =>
    rw [btTrailUpdate_barLong cfg b c hu hm hd, liveManagerStep_barLong cfg l c hm hd, hact]
    by_cases hcond : (b.active || decide (cfg.threshold ≤ c.high)) = true
    · rw [if_pos hcond, if_pos hcond]
      obtain ⟨h1, h2⟩ := hlong hd
      have ht := ratchetTrack_long b.stop l.stop (c.low - c.low * cfg.bufPct / 100) h1 h2
      exact ⟨rfl, fun _ => ⟨ht.1, ht.2⟩, fun hds => Direction.noConfusion hds⟩
    · rw [if_neg hcond, if_neg hcond]
      exact ⟨rfl, fun _ => hlong hd, fun hds => Direction.noConfusion hds⟩
  | short =>
    rw [btTrailUpdate_barShort cfg b c hu hm hd, liveManagerStep_barShort cfg l c hm hd, hact]
    by_cases hcond : (b.active || decide (c.low ≤ cfg.threshold)) = true
    · rw [if_pos hcond, if_pos hcond]
      obtain ⟨h1, h2⟩ := hshort hd
      have ht := ratchetTrack_short b.stop l.stop (c.high + c.high * cfg.bufPct / 100) h1 h2
      exact ⟨rfl, fun hds => Direction.noConfusion hds, fun _ => ⟨ht.1, ht.2⟩⟩
    · rw [if_neg hcond, if_neg hcond]
      exact ⟨rfl, fun hds => Direction.noConfusion hds, fun _ => hshort hd⟩

/-- The tracking invariant propagates along any candle sequence. -/
lemma trackFold_inv (cfg : TrailCfg) (hu : cfg.useTrail = true)
    (hm : cfg.mode = TrailMode.barExtremes) :
    ∀ (candles : List Candle) (b l : TrailState),
    l.active = b.active →
    (cfg.dir = Direction.long → l.stop ≤ b.stop ∧ b.stop - l.stop ≤ 1/100) →
    (cfg.dir = Direction.short → b.stop ≤ l.stop ∧ l.stop - b.stop ≤ 1/100) →
    (liveManagerFold cfg l (candles.map (fun c => (c, true)))).active =
      (btTrailFold cfg b candles).active ∧
    (cfg.dir = Direction.long →
      (liveManagerFold cfg l (candles.map (fun c => (c, true)))).stop ≤
        (btTrailFold cfg b candles).stop ∧
      (btTrailFold cfg b candles).stop -
        (liveManagerFold cfg l (candles.map (fun c => (c, true)))).stop ≤ 1/100) ∧
    (cfg.dir = Direction.short →
      (btTrailFold cfg b candles).stop ≤
        (liveManagerFold cfg l (candles.map (fun c => (c, true)))).stop ∧
      (liveManagerFold cfg l (candles.map (fun c => (c, true)))).stop -
        (btTrailFold cfg b candles).stop ≤ 1/100) := by
  intro candles
  induction candles with
  | nil =>
    intro b l hact hlong hshort
    exact ⟨hact, hlong, hshort⟩
  | cons c rest ih =>
    intro b l hact hlong hshort
    have hstep := trackStep_inv cfg hu hm b l c hact hlong hshort
    simp only [List.map, liveManagerFold, btTrailFold, List.foldl]
    exact ih (btTrailUpdate cfg b c) (liveManagerStep cfg l (c, true))
      hstep.1 hstep.2.1 hstep.2.2

/-- C1 (amended): in bar_extremes mode (trailing enabled, every exchange
replacement succeeding), feeding the candles one at a time to the live
TrailingStopManager reproduces the backtest per-bar trailing loop up to
the 0.01 minimal-update delta: the activation states agree after every
candle and the live stop tracks the backtest stop within 0.01 (the live
stop never overshoots the backtest stop for LONG, never undershoots it
for SHORT).  In step mode the two computations genuinely diverge: the
backtest bases the step target on the entry price and counts steps from
zero, the live manager bases it on the initial stop and starts from the
activation candle's step count (see the counterexample). -/
theorem C1_bar_extremes_tracking (cfg : TrailCfg) (hu : cfg.useTrail = true)
    (hm : cfg.mode = TrailMode.barExtremes) (s0 : ℚ) (candles : List Candle) :
    (liveManagerFold cfg ⟨s0, false, 0⟩ (candles.map (fun c => (c, true)))).active =
      (btTrailFold cfg ⟨s0, false, 0⟩ candles).active ∧
    (cfg.dir = Direction.long →
      (liveManagerFold cfg ⟨s0, false, 0⟩ (candles.map (fun c => (c, true)))).stop ≤
        (btTrailFold cfg ⟨s0, false, 0⟩ candles).stop ∧
      (btTrailFold cfg ⟨s0, false, 0⟩ candles).stop -
        (liveManagerFold cfg ⟨s0, false, 0⟩ (candles.map (fun c => (c, true)))).stop ≤ 1/100) ∧
    (cfg.dir = Direction.short →
      (btTrailFold cfg ⟨s0, false, 0⟩ candles).stop ≤
        (liveManagerFold cfg ⟨s0, false, 0⟩ (candles.map (fun c => (c, true)))).stop ∧
      (liveManagerFold cfg ⟨s0, false, 0⟩ (candles.map (fun c => (c, true)))).stop -
        (btTrailFold cfg ⟨s0, false, 0⟩ candles).stop ≤ 1/100) :=
  trackFold_inv cfg hu hm candles ⟨s0, false, 0⟩ ⟨s0, false, 0⟩ rfl
    (fun _ => ⟨le_refl _, by norm_num⟩) (fun _ => ⟨le_refl _, by norm_num⟩)

/-- C1, witness: the tracking conclusions at the concrete bar_extremes
LONG configuration and one-candle trace. -/
theorem C1_bar_extremes_tracking_witness :
    (liveManagerFold demoBarCfg ⟨95, false, 0⟩ [(⟨1, 107, 100, 106⟩, true)]).active =
      (btTrailFold demoBarCfg ⟨95, false, 0⟩ [⟨1, 107, 100, 106⟩]).active ∧
    (liveManagerFold demoBarCfg ⟨95, false, 0⟩ [(⟨1, 107, 100, 106⟩, true)]).stop ≤
      (btTrailFold demoBarCfg ⟨95, false, 0⟩ [⟨1, 107, 100, 106⟩]).stop ∧
    (btTrailFold demoBarCfg ⟨95, false, 0⟩ [⟨1, 107, 100, 106⟩]).stop -
      (liveManagerFold demoBarCfg ⟨95, false, 0⟩ [(⟨1, 107, 100, 106⟩, true)]).stop ≤ 1/100 := by
  have h := C1_bar_extremes_tracking demoBarCfg rfl rfl 95 [⟨1, 107, 100, 106⟩]
  exact ⟨h.1, h.2.1 rfl⟩

/-! ### C10 (amended) -/

/-- The simulate_all fold counts, for any starting counters: the total is
untouched, no_next_candle counts the zones with no trade and no candle
after the zone end, successful_trades counts the zones with a trade. -/
lemma simulateFold_counts (df : List Candle) (p : BtParams) :
    ∀ (zones : List Zone) (s : SimStats),
      (zones.foldl (simStatsStep df p) s).totalZones = s.totalZones ∧
      (zones.foldl (simStatsStep df p) s).noNextCandle =
        s.noNextCandle + (zones.filter (fun z =>
          decide (backtestZone df p z = none) &&
          (df.filter (fun c => z.zend < c.time)).isEmpty)).length ∧
      (zones.foldl (simStatsStep df p) s).successfulTrades =
        s.successfulTrades + (zones.filter (fun z =>
          decide (backtestZone df p z ≠ none))).length := by
  intro zones
  induction zones with
  | nil =>
    intro s
    simp
  | cons z t ih =>
    intro s
    cases hbz : backtestZone df p z with
    | some tr =>
      have hs : simStatsStep df p s z = { s with successfulTrades := s.successfulTrades + 1 } := by
        unfold simStatsStep
        rw [hbz]
      obtain ⟨i1, i2, i3⟩ := ih { s with successfulTrades := s.successfulTrades + 1 }
      refine ⟨?_, ?_, ?_⟩
      · rw [List.foldl_cons, hs, i1]
      · rw [List.foldl_cons, hs, i2]
        simp [List.filter_cons, hbz]
      · rw [List.foldl_cons, hs, i3]
        simp [List.filter_cons, hbz]
        omega
    | none =>
      by_cases hemp : (df.filter (fun c => z.zend < c.time)).isEmpty = true
      · have hs : simStatsStep df p s z = { s with noNextCandle := s.noNextCandle + 1 } := by
          unfold simStatsStep
          rw [hbz, if_pos hemp]
        obtain ⟨i1, i2, i3⟩ := ih { s with noNextCandle := s.noNextCandle + 1 }
        refine ⟨?_, ?_, ?_⟩
        · rw [List.foldl_cons, hs, i1]
        · rw [List.foldl_cons, hs, i2]
          simp [List.filter_cons, hbz, hemp]
          omega
        · rw [List.foldl_cons, hs, i3]
          simp [List.filter_cons, hbz]
      · have hs : simStatsStep df p s z = s := by
          unfold simStatsStep
          rw [hbz, if_neg hemp]
        obtain ⟨i1, i2, i3⟩ := ih s
        refine ⟨?_, ?_, ?_⟩
        · rw [List.foldl_cons, hs, i1]
        · rw [List.foldl_cons, hs, i2]
          simp only [Bool.not_eq_true] at hemp
          simp [List.filter_cons, hbz, hemp]
        · rw [List.foldl_cons, hs, i3]
          simp [List.filter_cons, hbz]

/-- C10 (amended): whenever the planned entry candle is the final candle
of the series there is no candle to scan for an exit, so the simulator
returns no trade at all (never an unresolved OPEN trade).  In the
aggregation, no_next_candle counts exactly the no-trade zones with no
candle after the zone end, and successful_trades the zones with a trade,
so a no-trade zone that still has candles after its end -- the entry
candle lying strictly after the zone end -- lands in the derived zones
without breakout figure, while a zone whose breakout candle is its own
final candle and the last of the series is counted under no_next_candle
(see the counterexample). -/
theorem C10_no_trade_and_tallying (df : List Candle) (p : BtParams) :
    (∀ (z : Zone) (tr : TradeLevels) (i : ℕ),
      calcLevels df p z = some tr → getLoc df tr.entryTime = some i →
      df.length ≤ i + 1 → backtestZone df p z = none) ∧
    (∀ zones : List Zone,
      (simulateAllStats df p zones).totalZones = zones.length ∧
      (simulateAllStats df p zones).noNextCandle = (zones.filter (fun z =>
        decide (backtestZone df p z = none) &&
        (df.filter (fun c => z.zend < c.time)).isEmpty)).length ∧
      (simulateAllStats df p zones).successfulTrades = (zones.filter (fun z =>
        decide (backtestZone df p z ≠ none))).length) ∧
    (∀ z : Zone, backtestZone df p z = none →
      (df.filter (fun c => z.zend < c.time)).isEmpty = false →
      zonesWithoutBreakout (simulateAllStats df p [z]) = 1 ∧
      (simulateAllStats df p [z]).noNextCandle = 0) := by
  refine ⟨?_, ?_, ?_⟩
  · intro z tr i hcl hloc hlen
    unfold backtestZone
    rw [hcl]
    dsimp only
    rw [hloc]
    dsimp only
    rw [if_pos hlen]
  · intro zones
    have h := simulateFold_counts df p zones
      { totalZones := zones.length, noNextCandle := 0, successfulTrades := 0 }
    unfold simulateAllStats
    refine ⟨h.1, ?_, ?_⟩
    · rw [h.2.1]
      simp
    · rw [h.2.2]
      simp
  · intro z hbz hemp
    have hone : simulateAllStats df p [z] =
        { totalZones := 1, noNextCandle := 0, successfulTrades := 0 } := by
      unfold simulateAllStats simStatsStep
      rw [List.foldl_cons, hbz, if_neg (by rw [hemp]; exact Bool.false_ne_true)]
      rfl
    rw [hone]
    exact ⟨rfl, rfl⟩

/-- A zone over the first two candles of demoEndDf whose bounds [0, 200]
no candle ever breaks out of. -/
def demoWideZone : Zone := ⟨1, 0, 1, 200, 0⟩

/-- C10, witness: the no-trade conclusion at demoEndZone (entry candle at
position 2 of the 3-candle series), and the tallying of the breakout-less
demoWideZone, which still has a candle after its end, under the derived
zones-without-breakout figure. -/
theorem C10_no_trade_and_tallying_witness :
    backtestZone demoEndDf demoParams demoEndZone = none ∧
    zonesWithoutBreakout (simulateAllStats demoEndDf demoParams [demoWideZone]) = 1 ∧
    (simulateAllStats demoEndDf demoParams [demoWideZone]).noNextCandle = 0 := by
  have h := C10_no_trade_and_tallying demoEndDf demoParams
  have h2 := h.2.2 demoWideZone (by decide) (by decide)
  exact ⟨h.1 demoEndZone demoEndLevels 2 demoEnd_calcLevels (by decide) (by decide),
    h2.1, h2.2⟩

end TradingBot
